import Mathlib

/-!
# scope guards and unique_resource (src/scope.hpp)

A shallow embedding of the header `scope.hpp`: the three exit policies, the
value box `_box`, the guard `basic_scope_exit` with its three instances
`scope_exit`, `scope_fail`, `scope_success`, and `unique_resource` with the
checked factory.

C++ features the header relies on are made explicit:

* the ambient counter `std::uncaught_exceptions()` and what the invoked
  callables have written are the fields of `World`;
* a piece of code that may throw returns an `Outcome`: normal completion,
  exit by an exception (already counted as uncaught), or `std::terminate`;
* a template parameter is a Lean type with instances that give its traits
  (`noexcept` answers) and its special member functions;
* an object passed by reference and modified is returned next to the outcome.
-/

namespace scope

/-! ## The abstract machine -/

/-- The value of `std::numeric_limits<int>::max()` for a 32-bit `int`. -/
def INT_MAX : Int := 2147483647

/-- Ambient state the library can observe or change through its callables:
`uncaught_exceptions` is the value `std::uncaught_exceptions()` returns,
`out` is what the invoked callables have written so far, oldest first. -/
structure World (κ : Type) where
  uncaught_exceptions : Int
  out : List κ
deriving DecidableEq, Repr

/-- How a piece of code ends: it returns `a`, it exits with exception `e`
(the world then counts `e` as uncaught), or `std::terminate` is called. -/
inductive Outcome (ε κ α : Type) where
  | ok (a : α) (w : World κ)
  | raise (e : ε) (w : World κ)
  | terminate (w : World κ)
deriving DecidableEq, Repr

section machine
variable {ε κ α β : Type}

/-- The world in which the code ended. -/
def Outcome.world : Outcome ε κ α → World κ
  | .ok _ w => w
  | .raise _ w => w
  | .terminate w => w

/-- Sequencing: the continuation runs only after a normal completion. -/
def Outcome.bind (o : Outcome ε κ α) (k : α → World κ → Outcome ε κ β) : Outcome ε κ β :=
  match o with
  | .ok a w => k a w
  | .raise e w => .raise e w
  | .terminate w => .terminate w

/-- The world once one more exception has been thrown and is not yet caught. -/
def thrown (w : World κ) : World κ :=
  { w with uncaught_exceptions := w.uncaught_exceptions + 1 }

/-- Statement `throw e;`: the exception becomes uncaught. -/
def throw_ (e : ε) (w : World κ) : Outcome ε κ α :=
  .raise e (thrown w)

/-- Entering a handler `catch (...)`: the exception stops being uncaught. -/
def caught (w : World κ) : World κ :=
  { w with uncaught_exceptions := w.uncaught_exceptions - 1 }

/-- Block `try { body } catch (...) { handler }`. -/
def try_catch (body : World κ → Outcome ε κ α) (handler : ε → World κ → Outcome ε κ α)
    (w : World κ) : Outcome ε κ α :=
  match body w with
  | .ok a w1 => .ok a w1
  | .raise e w1 => handler e (caught w1)
  | .terminate w1 => .terminate w1

/-- A function declared `noexcept(b)`: when `b` holds, an exception that would
leave it calls `std::terminate` instead. -/
def noexcept_ (b : Bool) (o : Outcome ε κ α) : Outcome ε κ α :=
  match b, o with
  | true, .raise _ w => .terminate w
  | _, o => o

/-- Stack unwinding step: an object is destroyed while exception `e` propagates;
a destructor that exits with an exception of its own calls `std::terminate`. -/
def unwind (dtor : World κ → Outcome ε κ Unit) (e : ε) (w : World κ) : Outcome ε κ α :=
  match dtor w with
  | .ok _ w1 => .raise e w1
  | .raise _ w1 => .terminate w1
  | .terminate w1 => .terminate w1

/-- End of the lifetime of a local object or temporary: after `o`, its
destructor `dtor` runs, normally or as part of stack unwinding. -/
def leave_scope (dtor : World κ → Outcome ε κ Unit) (o : Outcome ε κ α) : Outcome ε κ α :=
  match o with
  | .ok a w => (dtor w).bind (fun _ w1 => .ok a w1)
  | .raise e w => unwind dtor e w
  | .terminate w => .terminate w

/-- Lift the result of a constructor or assignment operator into the world. -/
def of_except (x : Except ε α) (w : World κ) : Outcome ε κ α :=
  match x with
  | .ok a => .ok a w
  | .error e => throw_ e w

end machine

/-! ## Template parameters -/

/-- An argument bound to a forwarding reference `TT &&t`: its value category
decides which constructor or assignment operator `std::forward<TT>(t)` selects. -/
inductive Arg (T : Type) where
  | lvalue (t : T)
  | rvalue (t : T)
deriving DecidableEq, Repr

/-- The object the reference is bound to. -/
def Arg.get {T : Type} : Arg T → T
  | .lvalue t => t
  | .rvalue t => t

/-- Construction traits and constructors of a C++ type `T`:
`copy_construct t` is `T(t)` for `T const &t`, `move_construct t` is
`T(std::move(t))`; each yields the new object or the exception it throws. -/
class Constructible (ε : Type) (T : Type) where
  is_nothrow_move_constructible : Bool
  is_copy_constructible : Bool
  is_nothrow_copy_constructible : Bool
  copy_construct : T → Except ε T
  move_construct : T → Except ε T

/-- Assignment traits and operators of a C++ type `T`: `copy_assign old t` is
the value of an object holding `old` after `value = t` for `T const &t`,
`move_assign old t` after `value = std::move(t)`, or the exception thrown (the
object is then taken to keep `old`). -/
class Assignable (ε : Type) (T : Type) where
  is_nothrow_move_assignable : Bool
  is_nothrow_copy_assignable : Bool
  copy_assign : T → T → Except ε T
  move_assign : T → T → Except ε T

/-- A type callable with no arguments (`std::is_invocable_v<EF>`):
`is_nothrow_invocable` is `noexcept(f())`, `call f` runs `f()`. -/
class Invocable (ε κ : Type) (F : Type) where
  is_nothrow_invocable : Bool
  call : F → World κ → Outcome ε κ Unit

/-- A deleter type `D` callable with a resource `R`:
`is_nothrow_delete_v` is `noexcept(d(r))`, `call d r` runs `d(r)`. -/
class Deleter (ε κ : Type) (D R : Type) where
  is_nothrow_delete_v : Bool
  call : D → R → World κ → Outcome ε κ Unit

/-- A type with a member `release()`, as the second argument of the `_box`
constructor needs. -/
class Releasable (G : Type) where
  release : G → G

/-- A reference `T &` (or `std::reference_wrapper<T>`): `get` is the object
referred to. -/
structure Ref (T : Type) where
  get : T
deriving DecidableEq, Repr

instance {ε κ F : Type} [Invocable ε κ F] : Invocable ε κ (Ref F) where
  is_nothrow_invocable := @Invocable.is_nothrow_invocable ε κ F _
  call r w := Invocable.call r.get w

/-- A lambda expression that captures by reference and is not declared
`noexcept`; `body` is what its call operator does. Its closure type is
nothrow move and copy constructible. -/
structure Lambda (ε κ : Type) where
  body : World κ → Outcome ε κ Unit

instance {ε κ : Type} : Constructible ε (Lambda ε κ) where
  is_nothrow_move_constructible := true
  is_copy_constructible := true
  is_nothrow_copy_constructible := true
  copy_construct f := .ok f
  move_construct f := .ok f

instance {ε κ : Type} : Invocable ε κ (Lambda ε κ) where
  is_nothrow_invocable := false
  call f w := f.body w

/-! ## `_box` (scope.hpp, lines 48-114) -/

/-- Class template `_box<T>`: the stored value. `_box (Ref T)` stands for the
specialisation `_box<T &>`. -/
structure _box (T : Type) where
  value : T
deriving DecidableEq, Repr

section box
variable {ε κ T G : Type}

/-- Whether `std::move_if_noexcept(t)` yields `T const &` (so that `T` is
copied) rather than `T &&`. -/
def move_if_noexcept_copies (ε T : Type) [Constructible ε T] : Bool :=
  !(@Constructible.is_nothrow_move_constructible ε T _) &&
    @Constructible.is_copy_constructible ε T _

/-- The private constructors: `_box(T const &t) : value(t)` for an lvalue,
`_box(T &&t) : value(std::move_if_noexcept(t))` for an rvalue. -/
def _box.init [Constructible ε T] (t : Arg T) : Except ε (_box T) :=
  match t with
  | .lvalue v => (Constructible.copy_construct v).map _box.mk
  | .rvalue v =>
    if move_if_noexcept_copies ε T then (Constructible.copy_construct v).map _box.mk
    else (Constructible.move_construct v).map _box.mk

/-- The exception specification `noexcept(_box((T &&) t))` of the public
constructor, that is `noexcept(T(std::move_if_noexcept(t)))`, whatever the
value category of the argument. -/
def _box.noexcept_ctor (ε T : Type) [Constructible ε T] : Bool :=
  if move_if_noexcept_copies ε T then @Constructible.is_nothrow_copy_constructible ε T _
  else @Constructible.is_nothrow_move_constructible ε T _

/-- Constructor `_box(TT &&t, GG &&guard)`: delegates to a private constructor
and then calls `guard.release()`; returns the box and the guard as left. -/
def _box.ctor [Constructible ε T] [Releasable G] (t : Arg T) (guard : G) (w : World κ) :
    Outcome ε κ (_box T × G) :=
  noexcept_ (_box.noexcept_ctor ε T)
    ((of_except (_box.init t) w).bind (fun b w1 => .ok (b, Releasable.release guard) w1))

/-- Constructor of the specialisation `_box<T &>`: binds the reference and calls
`guard.release()`; it cannot throw. -/
def _box.ctor_ref [Releasable G] (t : T) (guard : G) : _box (Ref T) × G :=
  (⟨⟨t⟩⟩, Releasable.release guard)

/-- Member `get()`. -/
def _box.get (self : _box T) : T := self.value

/-- Member `move()`: the stored value as an rvalue. -/
def _box.move (self : _box T) : T := self.value

/-- The assignment run by the members `reset(T const &t)`, which is `value = t`,
and `reset(T &&t)`, which is `value = _move_assign_if_noexcept(t)`. -/
def _box.assign [Assignable ε T] (self : _box T) (t : Arg T) : Except ε (_box T) :=
  match t with
  | .lvalue v => (Assignable.copy_assign self.value v).map _box.mk
  | .rvalue v =>
    if @Assignable.is_nothrow_move_assignable ε T _ then
      (Assignable.move_assign self.value v).map _box.mk
    else (Assignable.copy_assign self.value v).map _box.mk

/-- The exception specifications of the two `reset` overloads,
`noexcept(value = t)` and `noexcept(value = _move_assign_if_noexcept(t))`. -/
def _box.noexcept_reset (ε : Type) [Assignable ε T] (t : Arg T) : Bool :=
  match t with
  | .lvalue _ => @Assignable.is_nothrow_copy_assignable ε T _
  | .rvalue _ =>
    if @Assignable.is_nothrow_move_assignable ε T _ then true
    else @Assignable.is_nothrow_copy_assignable ε T _

/-- Members `reset(T const &t)` and `reset(T &&t)`: the box after the assignment. -/
def _box.reset [Assignable ε T] (self : _box T) (t : Arg T) (w : World κ) :
    Outcome ε κ (_box T) :=
  noexcept_ (_box.noexcept_reset ε t) (of_except (_box.assign self t) w)

/-- The implicit move assignment operator of `_box<T>`, which move assigns
`value`; it is `noexcept` iff `T` is nothrow move assignable. -/
def _box.move_assign [Assignable ε T] (self that : _box T) (w : World κ) :
    Outcome ε κ (_box T) :=
  noexcept_ (@Assignable.is_nothrow_move_assignable ε T _)
    (of_except ((Assignable.move_assign self.value that.value).map _box.mk) w)

/-- The implicit copy assignment operator of `_box<T>`, which copy assigns
`value`; it is `noexcept` iff `T` is nothrow copy assignable. -/
def _box.copy_assign [Assignable ε T] (self that : _box T) (w : World κ) :
    Outcome ε κ (_box T) :=
  noexcept_ (@Assignable.is_nothrow_copy_assignable ε T _)
    (of_except ((Assignable.copy_assign self.value that.value).map _box.mk) w)

end box

/-! ## Exit policies (scope.hpp, lines 122-166) -/

/-- Policy `on_exit_policy`. -/
structure on_exit_policy where
  execute_ : Bool := true
deriving DecidableEq, Repr

/-- Member `on_exit_policy::release`. -/
def on_exit_policy.release (_self : on_exit_policy) : on_exit_policy :=
  { execute_ := false }

/-- Member `on_exit_policy::should_execute`. -/
def on_exit_policy.should_execute (self : on_exit_policy) : Bool :=
  self.execute_

/-- Policy `on_fail_policy`; `ec_` is initialised with `std::uncaught_exceptions()`. -/
structure on_fail_policy where
  ec_ : Int
deriving DecidableEq, Repr

/-- Member `on_fail_policy::release`. -/
def on_fail_policy.release (_self : on_fail_policy) : on_fail_policy :=
  { ec_ := INT_MAX }

/-- Member `on_fail_policy::should_execute`, given `std::uncaught_exceptions()`. -/
def on_fail_policy.should_execute (self : on_fail_policy) (uncaught : Int) : Bool :=
  decide (self.ec_ < uncaught)

/-- Policy `on_success_policy`; `ec_` is initialised with `std::uncaught_exceptions()`. -/
structure on_success_policy where
  ec_ : Int
deriving DecidableEq, Repr

/-- Member `on_success_policy::release`. -/
def on_success_policy.release (_self : on_success_policy) : on_success_policy :=
  { ec_ := -1 }

/-- Member `on_success_policy::should_execute`, given `std::uncaught_exceptions()`. -/
def on_success_policy.should_execute (self : on_success_policy) (uncaught : Int) : Bool :=
  decide (self.ec_ ≥ uncaught)

/-- What `basic_scope_exit` uses of its template parameter `Policy`:
default construction (with the current value of `std::uncaught_exceptions()`),
`release()` and `should_execute()`. -/
class ExitPolicy (P : Type) where
  init : Int → P
  release : P → P
  should_execute : P → Int → Bool

instance : ExitPolicy on_exit_policy where
  init _ := {}
  release := on_exit_policy.release
  should_execute p _ := p.should_execute

instance : ExitPolicy on_fail_policy where
  init n := { ec_ := n }
  release := on_fail_policy.release
  should_execute := on_fail_policy.should_execute

instance : ExitPolicy on_success_policy where
  init n := { ec_ := n }
  release := on_success_policy.release
  should_execute := on_success_policy.should_execute

/-- A policy for which `release()` is final on every count an `int` can hold:
this is what lets a released failsafe be destroyed without effect. -/
def ReleaseFinal (P : Type) [ExitPolicy P] : Prop :=
  ∀ (p : P) (n : Int), 0 ≤ n → n ≤ INT_MAX →
    ExitPolicy.should_execute (ExitPolicy.release p) n = false

/-! ## Guards (scope.hpp, lines 168-272) -/

/-- Helper `_empty_scope_exit`. -/
structure _empty_scope_exit where
deriving DecidableEq, Repr

instance : Releasable _empty_scope_exit where
  release g := g

/-- Class template `basic_scope_exit<EF, Policy>`: the base class subobject
`Policy` and the member `exit_function`. -/
structure basic_scope_exit (EF Policy : Type) where
  policy : Policy
  exit_function : _box EF
deriving DecidableEq, Repr

/-- Guard `scope_exit<EF>`. -/
abbrev scope_exit (EF : Type) := basic_scope_exit EF on_exit_policy

/-- Guard `scope_fail<EF>`. -/
abbrev scope_fail (EF : Type) := basic_scope_exit EF on_fail_policy

/-- Guard `scope_success<EF>`. -/
abbrev scope_success (EF : Type) := basic_scope_exit EF on_success_policy

section guard
variable {ε κ EF P : Type}

/-- Member `release()`, inherited from the policy (`using Policy::release`). -/
def basic_scope_exit.release [ExitPolicy P] (self : basic_scope_exit EF P) :
    basic_scope_exit EF P :=
  { self with policy := ExitPolicy.release self.policy }

instance [ExitPolicy P] : Releasable (basic_scope_exit EF P) where
  release := basic_scope_exit.release

/-- Destructor `~basic_scope_exit() noexcept(noexcept(exit_function.get()()))`. -/
def basic_scope_exit.dtor [Invocable ε κ EF] [ExitPolicy P] (self : basic_scope_exit EF P)
    (w : World κ) : Outcome ε κ Unit :=
  noexcept_ (@Invocable.is_nothrow_invocable ε κ EF _)
    (if ExitPolicy.should_execute self.policy w.uncaught_exceptions then
      Invocable.call self.exit_function.get w
    else .ok () w)

/-- Trait `_noexcept_ctor_from<EFP>`. -/
def _noexcept_ctor_from (ε EF : Type) [Constructible ε EF] : Bool :=
  _box.noexcept_ctor ε EF

/-- Constructor of `basic_scope_exit<Fn &, Policy>` from `*fn`: the box of a
reference is built without throwing, so its own failsafe is `_empty_scope_exit`. -/
def basic_scope_exit.ctor_ref [ExitPolicy P] (fn : EF) (w : World κ) :
    basic_scope_exit (Ref EF) P :=
  { policy := ExitPolicy.init w.uncaught_exceptions
    exit_function := (_box.ctor_ref fn _empty_scope_exit.mk).1 }

/-- Constructor `basic_scope_exit(EFP &&ef)`: the policy is default constructed,
then `exit_function` is built from `ef` with the failsafe
`_make_failsafe(_noexcept_ctor_from<EFP>{}, &ef)`, a temporary that is
destroyed when the initialisation of `exit_function` ends or throws. -/
def basic_scope_exit.ctor [Constructible ε EF] [Invocable ε κ EF] [ExitPolicy P]
    (ef : Arg EF) (w : World κ) : Outcome ε κ (basic_scope_exit EF P) :=
  let policy : P := ExitPolicy.init w.uncaught_exceptions
  noexcept_ (_noexcept_ctor_from ε EF)
    (if _noexcept_ctor_from ε EF then
      (_box.ctor ef _empty_scope_exit.mk w).bind
        (fun b w1 => .ok { policy := policy, exit_function := b.1 } w1)
    else
      let failsafe : basic_scope_exit (Ref EF) P := basic_scope_exit.ctor_ref ef.get w
      match _box.ctor ef failsafe w with
      | .ok b w1 =>
        (basic_scope_exit.dtor b.2 w1).bind
          (fun _ w2 => .ok { policy := policy, exit_function := b.1 } w2)
      | .raise e w1 => unwind (basic_scope_exit.dtor failsafe) e w1
      | .terminate w1 => .terminate w1)

/-- Move constructor `basic_scope_exit(basic_scope_exit &&that)`: the policy is
copied, `exit_function` is built from `that.exit_function.move()` with `that`
as the guard to release. Returns `that` as left, and the outcome. -/
def basic_scope_exit.move_ctor [Constructible ε EF] [ExitPolicy P]
    (that : basic_scope_exit EF P) (w : World κ) :
    basic_scope_exit EF P × Outcome ε κ (basic_scope_exit EF P) :=
  match _box.ctor (.rvalue that.exit_function.move) that w with
  | .ok b w1 => (b.2, .ok { policy := that.policy, exit_function := b.1 } w1)
  | .raise e w1 => (that, .raise e w1)
  | .terminate w1 => (that, .terminate w1)

end guard

/-! ## `unique_resource` (scope.hpp, lines 279-447) -/

/-- Class template `unique_resource<R, D>`. -/
structure unique_resource (R D : Type) where
  resource : _box R
  deleter : _box D
  execute_on_destruction : Bool := true
deriving DecidableEq, Repr

/-- A type `R` that can be compared with a sentinel of type `S` by `r == invalid`;
the comparison yields a truth value or throws. -/
class EqualityComparable (ε : Type) (R S : Type) where
  eq : R → S → Except ε Bool

section unique
variable {ε κ T R D S : Type}

/-- Member `get()`. -/
def unique_resource.get (self : unique_resource R D) : R := self.resource.get

/-- Member `get_deleter()`. -/
def unique_resource.get_deleter (self : unique_resource R D) : D := self.deleter.get

/-- Member `release()`. -/
def unique_resource.release (self : unique_resource R D) : unique_resource R D :=
  { self with execute_on_destruction := false }

/-- Member `reset() noexcept`: returns the object as left, and the outcome. -/
def unique_resource.reset [Deleter ε κ D R] (self : unique_resource R D) (w : World κ) :
    unique_resource R D × Outcome ε κ Unit :=
  if self.execute_on_destruction then
    let self1 : unique_resource R D := { self with execute_on_destruction := false }
    (self1, noexcept_ true (Deleter.call self1.get_deleter self1.get w))
  else (self, .ok () w)

/-- Destructor `~unique_resource()`, which calls `reset()`. -/
def unique_resource.dtor [Deleter ε κ D R] (self : unique_resource R D) (w : World κ) :
    unique_resource R D × Outcome ε κ Unit :=
  let r : unique_resource R D × Outcome ε κ Unit := self.reset w
  (r.1, noexcept_ true r.2)

/-- A member initialiser of the form `member(std::forward<TT>(t), scope_exit(fallback))`:
the temporary guard around the lambda `fallback` is built, the box is built
from `t` with that guard, and the temporary is destroyed when the
initialisation ends or throws. -/
def _box.ctor_with_fallback [Constructible ε T] (t : Arg T) (fallback : Lambda ε κ)
    (w : World κ) : Outcome ε κ (_box T) :=
  (basic_scope_exit.ctor (.rvalue fallback) w : Outcome ε κ (scope_exit (Lambda ε κ))).bind
    (fun guard w1 =>
      match _box.ctor t guard w1 with
      | .ok b w2 => (basic_scope_exit.dtor b.2 w2).bind (fun _ w3 => .ok b.1 w3)
      | .raise e w2 => unwind (basic_scope_exit.dtor guard) e w2
      | .terminate w2 => .terminate w2)

/-- Private constructor `unique_resource(RR &&r, DD &&d, bool should_run)`. The
fallback of `resource` is `[&] { if (should_run) d(r); }`, the fallback of
`deleter` is `[&, this] { if (should_run) d(get()); }`. -/
def unique_resource.ctor3 [Constructible ε R] [Constructible ε D] [Deleter ε κ D R]
    (r : Arg R) (d : Arg D) (should_run : Bool) (w : World κ) :
    Outcome ε κ (unique_resource R D) :=
  noexcept_ (_box.noexcept_ctor ε R && _box.noexcept_ctor ε D)
    ((_box.ctor_with_fallback r
        ⟨fun w0 => if should_run then Deleter.call d.get r.get w0 else .ok () w0⟩ w).bind
      (fun resource w1 =>
        (_box.ctor_with_fallback d
            ⟨fun w0 => if should_run then Deleter.call d.get resource.get w0 else .ok () w0⟩
            w1).bind
          (fun deleter w2 =>
            .ok { resource := resource, deleter := deleter,
                  execute_on_destruction := should_run } w2)))

/-- Public constructor `unique_resource(RR &&r, DD &&d)`. The fallback of
`resource` is `[&] { d(r); }`, the fallback of `deleter` is
`[&, this] { d(get()); }`; `execute_on_destruction` keeps its default `true`. -/
def unique_resource.ctor [Constructible ε R] [Constructible ε D] [Deleter ε κ D R]
    (r : Arg R) (d : Arg D) (w : World κ) : Outcome ε κ (unique_resource R D) :=
  noexcept_ (_box.noexcept_ctor ε R && _box.noexcept_ctor ε D)
    ((_box.ctor_with_fallback r ⟨fun w0 => Deleter.call d.get r.get w0⟩ w).bind
      (fun resource w1 =>
        (_box.ctor_with_fallback d ⟨fun w0 => Deleter.call d.get resource.get w0⟩ w1).bind
          (fun deleter w2 => .ok { resource := resource, deleter := deleter } w2)))

/-- The object `that` once the temporary guard of the move constructor has been
destroyed in world `w`: the lambda of that guard ends with `that.release()`,
which runs when the guard executes and the deleter call before it returns. -/
def unique_resource.after_move_guard (that : unique_resource R D)
    (guard : scope_exit (Lambda ε κ)) (w : World κ) : unique_resource R D :=
  match guard.policy.should_execute, (basic_scope_exit.dtor guard w : Outcome ε κ Unit) with
  | true, .ok _ _ => that.release
  | _, _ => that

/-- Move constructor `unique_resource(unique_resource &&that)`. The fallback of
`deleter` is
`[&, this] { if (that.execute_on_destruction) that.get_deleter()(get()); that.release(); }`;
its effect on `that` is `after_move_guard`. Returns `that` as left, and the outcome. -/
def unique_resource.move_ctor [Constructible ε R] [Constructible ε D] [Deleter ε κ D R]
    (that : unique_resource R D) (w : World κ) :
    unique_resource R D × Outcome ε κ (unique_resource R D) :=
  let nx : Bool := _box.noexcept_ctor ε R && _box.noexcept_ctor ε D
  match (_box.ctor (.rvalue that.resource.move) _empty_scope_exit.mk w :
      Outcome ε κ (_box R × _empty_scope_exit)) with
  | .raise e w1 => (that, noexcept_ nx (.raise e w1))
  | .terminate w1 => (that, .terminate w1)
  | .ok br w1 =>
    match (basic_scope_exit.ctor
        (.rvalue ⟨fun w0 =>
          if that.execute_on_destruction then Deleter.call that.get_deleter br.1.get w0
          else .ok () w0⟩) w1 : Outcome ε κ (scope_exit (Lambda ε κ))) with
    | .raise e w2 => (that, noexcept_ nx (.raise e w2))
    | .terminate w2 => (that, .terminate w2)
    | .ok guard w2 =>
      match _box.ctor (.rvalue that.deleter.move) guard w2 with
      | .raise e w3 =>
        (that.after_move_guard guard w3, noexcept_ nx (unwind (basic_scope_exit.dtor guard) e w3))
      | .terminate w3 => (that, .terminate w3)
      | .ok bd w3 =>
        let that1 := that.after_move_guard bd.2 w3
        ({ that1 with execute_on_destruction := false },
          noexcept_ nx ((basic_scope_exit.dtor bd.2 w3).bind
            (fun _ w4 =>
              .ok { resource := br.1, deleter := bd.1,
                    execute_on_destruction := that1.execute_on_destruction } w4)))

/-- Member `reset(RR &&r)`. The local guard is
`scope_fail([&, this] { get_deleter()(r); })`; it is destroyed when the
function returns or is left by an exception. Returns the object as left, and
the outcome. -/
def unique_resource.reset_value [Assignable ε R] [Deleter ε κ D R]
    (self : unique_resource R D) (r : Arg R) (w : World κ) :
    unique_resource R D × Outcome ε κ Unit :=
  let nx : Bool := _box.noexcept_reset ε r
  match (basic_scope_exit.ctor (.rvalue ⟨fun w0 => Deleter.call self.get_deleter r.get w0⟩) w :
      Outcome ε κ (scope_fail (Lambda ε κ))) with
  | .raise e w1 => (self, noexcept_ nx (.raise e w1))
  | .terminate w1 => (self, .terminate w1)
  | .ok guard w1 =>
    match self.reset w1 with
    | (self1, .ok _ w2) =>
      match (_box.reset self1.resource r w2 : Outcome ε κ (_box R)) with
      | .ok b w3 =>
        ({ self1 with resource := b, execute_on_destruction := true },
          noexcept_ nx (leave_scope (basic_scope_exit.dtor guard) (.ok () w3)))
      | .raise e w3 =>
        (self1, noexcept_ nx (leave_scope (basic_scope_exit.dtor guard) (.raise e w3)))
      | .terminate w3 => (self1, .terminate w3)
    | (self1, o) => (self1, noexcept_ nx (leave_scope (basic_scope_exit.dtor guard) o))

/-- Modelled from the spec: helper `_as_const`, which `operator=` calls at
scope.hpp, lines 344, 348, 351 and 352, and which the source declares nowhere,
so that as the source stands only the branch of `operator=` without it can be
instantiated. The spec has "if a box type is nothrow-move-assignable use move,
else copy (const-qualified)": the helper yields its argument as a `const`
lvalue, and the assignment from it is the copy assignment. -/
def _as_const (x : _box T) : _box T := x

/-- One assignment of the move assignment operator, `resource = std::move(that.resource)`
when `by_move` holds and `resource = _as_const(that.resource)` otherwise. -/
def unique_resource.assign_resource [Assignable ε R] (self that : unique_resource R D)
    (by_move : Bool) (w : World κ) : Outcome ε κ (unique_resource R D) :=
  (if by_move then _box.move_assign self.resource that.resource w
    else _box.copy_assign self.resource (_as_const that.resource) w).bind
    (fun b w1 => .ok { self with resource := b } w1)

/-- One assignment of the move assignment operator, `deleter = std::move(that.deleter)`
when `by_move` holds and `deleter = _as_const(that.deleter)` otherwise. -/
def unique_resource.assign_deleter [Assignable ε D] (self that : unique_resource R D)
    (by_move : Bool) (w : World κ) : Outcome ε κ (unique_resource R D) :=
  (if by_move then _box.move_assign self.deleter that.deleter w
    else _box.copy_assign self.deleter (_as_const that.deleter) w).bind
    (fun b w1 => .ok { self with deleter := b } w1)

/-- Two assignments in a row on `self`; when one throws, `self` keeps what the
assignments before it stored. Returns `self` as left, and the outcome. -/
def unique_resource.assign_both
    (first second : unique_resource R D → World κ → Outcome ε κ (unique_resource R D))
    (self : unique_resource R D) (w : World κ) :
    unique_resource R D × Outcome ε κ Unit :=
  match first self w with
  | .ok self1 w1 =>
    match second self1 w1 with
    | .ok self2 w2 => (self2, .ok () w2)
    | .raise e w2 => (self1, .raise e w2)
    | .terminate w2 => (self1, .terminate w2)
  | .raise e w1 => (self, .raise e w1)
  | .terminate w1 => (self, .terminate w1)

/-- Move assignment `operator=(unique_resource &&that)` between two distinct
objects (for `&that == this` nothing is done): `reset()`, then the two
assignments in the order and of the kind the `if constexpr` branches select,
then `execute_on_destruction = std::exchange(that.execute_on_destruction, false)`.
Returns `self` and `that` as left, and the outcome. -/
def unique_resource.move_assign [Assignable ε R] [Assignable ε D] [Deleter ε κ D R]
    (self that : unique_resource R D) (w : World κ) :
    (unique_resource R D × unique_resource R D) × Outcome ε κ Unit :=
  let nx : Bool := @Deleter.is_nothrow_delete_v ε κ D R _ &&
    @Assignable.is_nothrow_move_assignable ε R _ && @Assignable.is_nothrow_move_assignable ε D _
  match self.reset w with
  | (self1, .ok _ w1) =>
    let assigned : unique_resource R D × Outcome ε κ Unit :=
      if @Assignable.is_nothrow_move_assignable ε R _ then
        if @Assignable.is_nothrow_move_assignable ε D _ then
          unique_resource.assign_both (fun s w0 => s.assign_resource that true w0)
            (fun s w0 => s.assign_deleter that true w0) self1 w1
        else
          unique_resource.assign_both (fun s w0 => s.assign_deleter that false w0)
            (fun s w0 => s.assign_resource that true w0) self1 w1
      else if @Assignable.is_nothrow_move_assignable ε D _ then
        unique_resource.assign_both (fun s w0 => s.assign_resource that false w0)
          (fun s w0 => s.assign_deleter that true w0) self1 w1
      else
        unique_resource.assign_both (fun s w0 => s.assign_resource that false w0)
          (fun s w0 => s.assign_deleter that false w0) self1 w1
    match assigned with
    | (self2, .ok _ w2) =>
      (({ self2 with execute_on_destruction := that.execute_on_destruction }, that.release),
        .ok () w2)
    | (self2, o) => ((self2, that), noexcept_ nx o)
  | (self1, o) => ((self1, that), noexcept_ nx o)

/-- Trait `std::is_nothrow_constructible_v<std::decay_t<MR>, MR>` for the
forwarded argument: copy construction for an lvalue, move construction for an
rvalue. -/
def Arg.is_nothrow_constructible (ε : Type) [Constructible ε T] (t : Arg T) : Bool :=
  match t with
  | .lvalue _ => @Constructible.is_nothrow_copy_constructible ε T _
  | .rvalue _ => @Constructible.is_nothrow_move_constructible ε T _

/-- Helper `factory_holder::special_maker`: builds the object with the private
constructor and returns it (the local is the return object). -/
def factory_holder.special_maker [Constructible ε R] [Constructible ε D] [Deleter ε κ D R]
    (r : Arg R) (d : Arg D) (shouldrun : Bool) (w : World κ) :
    Outcome ε κ (unique_resource R D) :=
  unique_resource.ctor3 r d shouldrun w

/-- Factory `make_unique_resource_checked(r, invalid, d)`. -/
def make_unique_resource_checked [Constructible ε R] [Constructible ε D] [Deleter ε κ D R]
    [EqualityComparable ε R S] (r : Arg R) (invalid : S) (d : Arg D) (w : World κ) :
    Outcome ε κ (unique_resource R D) :=
  noexcept_ (r.is_nothrow_constructible ε && d.is_nothrow_constructible ε)
    ((of_except (EqualityComparable.eq r.get invalid) w).bind
      (fun mustrelease w1 => factory_holder.special_maker r d (!mustrelease) w1))

end unique

/-! ## Callables of the tests (tests/test.cpp) -/

/-- A lambda of the tests, such as `[&] { out << "done\n"; }` or
`[&] { out << "called"; throw 42; }`: it writes `text`, then returns or throws
`throws`. It captures by reference, so copying and moving it cannot throw. -/
structure Callback (κ ε : Type) where
  text : κ
  throws : Option ε := none
deriving DecidableEq, Repr

instance {κ ε : Type} : Constructible ε (Callback κ ε) where
  is_nothrow_move_constructible := true
  is_copy_constructible := true
  is_nothrow_copy_constructible := true
  copy_construct f := .ok f
  move_construct f := .ok f

instance {κ ε : Type} : Invocable ε κ (Callback κ ε) where
  is_nothrow_invocable := false
  call f w :=
    match f.throws with
    | none => .ok () { w with out := w.out ++ [f.text] }
    | some e => throw_ e { w with out := w.out ++ [f.text] }

/-- Function object `throwing_copy` (test.cpp, lines 182-209): the only
constructor from another `throwing_copy` is the copy constructor, which throws
`"throwing_copy copy attempt:"s + sz_`. There `sz_` is the member of the object
under construction, which the constructor does not initialise from `other`, so
it has its default value `""` and the text thrown ends at the colon. Calling
the object writes `sz_`. -/
structure throwing_copy where
  sz_ : String
deriving DecidableEq, Repr

instance : Constructible String throwing_copy where
  is_nothrow_move_constructible := false
  is_copy_constructible := true
  is_nothrow_copy_constructible := false
  copy_construct _ := .error "throwing_copy copy attempt:"
  move_construct _ := .error "throwing_copy copy attempt:"

instance : Invocable String String throwing_copy where
  is_nothrow_invocable := false
  call t w := .ok () { w with out := w.out ++ [t.sz_] }

/-- A deleter lambda of the tests, such as
`[&out](int i) { out << "cleaned " << i; }`: it writes the resource it is
called with. Copying and moving it cannot throw. -/
structure logging_deleter where
deriving DecidableEq, Repr

instance {ε : Type} : Constructible ε logging_deleter where
  is_nothrow_move_constructible := true
  is_copy_constructible := true
  is_nothrow_copy_constructible := true
  copy_construct d := .ok d
  move_construct d := .ok d

instance {ε R : Type} : Deleter ε R logging_deleter R where
  is_nothrow_delete_v := false
  call _ r w := .ok () { w with out := w.out ++ [r] }

/-- The C++ type `int` as a resource: all its operations are `noexcept`. -/
instance {ε : Type} : Constructible ε Int where
  is_nothrow_move_constructible := true
  is_copy_constructible := true
  is_nothrow_copy_constructible := true
  copy_construct i := .ok i
  move_construct i := .ok i

instance {ε : Type} : Assignable ε Int where
  is_nothrow_move_assignable := true
  is_nothrow_copy_assignable := true
  copy_assign _ i := .ok i
  move_assign _ i := .ok i

instance {ε : Type} : EqualityComparable ε Int Int where
  eq r invalid := .ok (decide (r = invalid))

/-- Called with a resource, `throwing_copy` writes `sz_` followed by the
resource (`out << sz_ << res`, test.cpp, lines 194-197). -/
instance : Deleter String String throwing_copy Int where
  is_nothrow_delete_v := false
  call t r w := .ok () { w with out := w.out ++ [t.sz_ ++ toString r] }

/-- Member `throwing_copy::operator==(int i)`, which returns `i == 0`
(test.cpp, lines 199-201). -/
instance : EqualityComparable String throwing_copy Int where
  eq _ i := .ok (decide (i = 0))

/-- A deleter lambda of the tests for a `throwing_copy` resource, such as
`[&out](auto const &i) { out << i << " called\n"; }` (test.cpp, lines 439-444):
it writes the resource followed by `suffix`. -/
structure suffix_deleter where
  suffix : String
deriving DecidableEq, Repr

instance {ε : Type} : Constructible ε suffix_deleter where
  is_nothrow_move_constructible := true
  is_copy_constructible := true
  is_nothrow_copy_constructible := true
  copy_construct d := .ok d
  move_construct d := .ok d

instance {ε : Type} : Deleter ε String suffix_deleter throwing_copy where
  is_nothrow_delete_v := false
  call d r w := .ok () { w with out := w.out ++ [r.sz_ ++ d.suffix] }

/-- A function object with implicit special members whose call operator writes
the resource it is called with; unlike a lambda it can be assigned. -/
structure writing_functor where
deriving DecidableEq, Repr

instance {ε : Type} : Constructible ε writing_functor where
  is_nothrow_move_constructible := true
  is_copy_constructible := true
  is_nothrow_copy_constructible := true
  copy_construct d := .ok d
  move_construct d := .ok d

instance {ε : Type} : Assignable ε writing_functor where
  is_nothrow_move_assignable := true
  is_nothrow_copy_assignable := true
  copy_assign _ d := .ok d
  move_assign _ d := .ok d

instance {ε R : Type} : Deleter ε R writing_functor R where
  is_nothrow_delete_v := false
  call _ r w := .ok () { w with out := w.out ++ [r] }

/-- A deleter that throws when called, such as the lambda
`[](auto) noexcept(false) { throw 42; }` (test.cpp, line 239, in a comment). -/
structure throwing_deleter (ε : Type) where
  exn : ε
deriving DecidableEq, Repr

instance {ε : Type} : Constructible ε (throwing_deleter ε) where
  is_nothrow_move_constructible := true
  is_copy_constructible := true
  is_nothrow_copy_constructible := true
  copy_construct d := .ok d
  move_construct d := .ok d

instance {ε κ R : Type} : Deleter ε κ (throwing_deleter ε) R where
  is_nothrow_delete_v := false
  call d _ w := throw_ d.exn w

/-- A sentinel of a type whose `operator==` with a resource throws. -/
structure throwing_sentinel (ε : Type) where
  exn : ε
deriving DecidableEq, Repr

instance {ε R : Type} : EqualityComparable ε R (throwing_sentinel ε) where
  eq _ s := .error s.exn

/-- A resource type whose assignment operators are not declared `noexcept` and
throw; its constructors are `noexcept`. -/
structure throwing_assign where
  name : String
deriving DecidableEq, Repr

instance {ε : Type} : Constructible ε throwing_assign where
  is_nothrow_move_constructible := true
  is_copy_constructible := true
  is_nothrow_copy_constructible := true
  copy_construct t := .ok t
  move_construct t := .ok t

instance : Assignable String throwing_assign where
  is_nothrow_move_assignable := false
  is_nothrow_copy_assignable := false
  copy_assign _ t := .error ("assignment of " ++ t.name)
  move_assign _ t := .error ("assignment of " ++ t.name)

/-- A function object whose move constructor is declared `noexcept` and whose
copy constructor throws `"copy"`, such as a class with the members
`T(T &&) noexcept = default;` and `T(T const &) { throw "copy"s; }`; the tests
have no such type. Called without arguments it writes `sz_`, called with a
resource it writes `sz_` followed by the resource, and `operator==(int i)`
returns `i == 0`, as for `throwing_copy`. -/
structure noexcept_move_throwing_copy where
  sz_ : String
deriving DecidableEq, Repr

instance : Constructible String noexcept_move_throwing_copy where
  is_nothrow_move_constructible := true
  is_copy_constructible := true
  is_nothrow_copy_constructible := false
  copy_construct _ := .error "copy"
  move_construct t := .ok t

instance : Invocable String String noexcept_move_throwing_copy where
  is_nothrow_invocable := false
  call t w := .ok () { w with out := w.out ++ [t.sz_] }

instance : Deleter String String noexcept_move_throwing_copy Int where
  is_nothrow_delete_v := false
  call t r w := .ok () { w with out := w.out ++ [t.sz_ ++ toString r] }

instance : EqualityComparable String noexcept_move_throwing_copy Int where
  eq _ i := .ok (decide (i = 0))

instance {ε : Type} : Deleter ε String suffix_deleter noexcept_move_throwing_copy where
  is_nothrow_delete_v := false
  call d r w := .ok () { w with out := w.out ++ [r.sz_ ++ d.suffix] }

/-- The lambda `[&] { out << "done\n"; }` of the tests. -/
def done : Callback String String := { text := "done" }

/-- A world with no exception in flight and nothing written. -/
def quiet : World String := { uncaught_exceptions := 0, out := [] }

/-! ## Programs of the tests -/

section programs
variable {ε κ EF P : Type}

/-- Program `try { G guard(ef); throw e; } catch (...) { }` (test.cpp, lines
113-117 and 127-131): the exception leaves the scope of the guard, which is
destroyed by the unwinding, and is caught afterwards. -/
def throw_unwinding_guard (P : Type) [Constructible ε EF] [Invocable ε κ EF] [ExitPolicy P]
    (ef : Arg EF) (e : ε) (w : World κ) : Outcome ε κ Unit :=
  try_catch
    (fun w0 =>
      (basic_scope_exit.ctor ef w0 : Outcome ε κ (basic_scope_exit EF P)).bind
        (fun guard w1 => leave_scope (basic_scope_exit.dtor guard) (throw_ e w1)))
    (fun _ w1 => .ok () w1)
    w

/-- Program `{ G guard(ef); try { throw e; } catch (...) { } }`: the exception
is thrown and caught before the scope of the guard ends. -/
def throw_caught_within_guard (P : Type) [Constructible ε EF] [Invocable ε κ EF]
    [ExitPolicy P] (ef : Arg EF) (e : ε) (w : World κ) : Outcome ε κ Unit :=
  (basic_scope_exit.ctor ef w : Outcome ε κ (basic_scope_exit EF P)).bind
    (fun guard w1 =>
      leave_scope (basic_scope_exit.dtor guard)
        (try_catch (fun w2 => throw_ e w2) (fun _ w2 => .ok () w2) w1))

/-- Statements `u.reset(); u.reset();`. -/
def unique_resource.reset_twice {R D : Type} [Deleter ε κ D R] (self : unique_resource R D)
    (w : World κ) : unique_resource R D × Outcome ε κ Unit :=
  match self.reset w with
  | (self1, .ok _ w1) => self1.reset w1
  | (self1, o) => (self1, o)

/-- Test "Test unique_resource semantics reset" (test.cpp, lines 275-282):
`{ auto cleanup = unique_resource(1, deleter); cleanup.reset(2); }` with the
deleter that writes its argument. -/
def unique_resource_semantics_reset (w : World Int) : Outcome String Int Unit :=
  (unique_resource.ctor (.rvalue 1) (.rvalue logging_deleter.mk) w :
      Outcome String Int (unique_resource Int logging_deleter)).bind
    (fun cleanup w1 =>
      match cleanup.reset_value (.rvalue 2) w1 with
      | (cleanup1, o) => leave_scope (fun w2 => (cleanup1.dtor w2).2) o)

end programs

/-! ## Runs of operations on a `unique_resource` -/

/-- One of the member calls `reset()`, `reset(v)` and `release()`. -/
inductive Op (R : Type) where
  | reset
  | reset_value (v : Arg R)
  | release
deriving DecidableEq, Repr

/-- What a run records in `out`: the deleter was called with `v`; the run called
`reset(v)`, which returned; the run called `release()`. -/
inductive Event (R : Type) where
  | deleted (v : R)
  | armed (v : R)
  | released
deriving DecidableEq, Repr

/-- A deleter that records each of its calls as `Event.deleted`. -/
structure recording_deleter where
deriving DecidableEq, Repr

instance {ε R : Type} : Deleter ε (Event R) recording_deleter R where
  is_nothrow_delete_v := false
  call _ r w := .ok () { w with out := w.out ++ [.deleted r] }

section runs
variable {ε R D : Type}

/-- The value the object is armed with: the held value while it owns. -/
def unique_resource.armed (self : unique_resource R D) : Option R :=
  if self.execute_on_destruction then some self.get else none

/-- The argument `v` of the most recent `reset(v)` at the end of a record
(`cur` when the record has none), or `none` when a deleter call or a
`release()` came after it. -/
def armed_after (cur : Option R) : List (Event R) → Option R
  | [] => cur
  | .deleted _ :: t => armed_after none t
  | .armed v :: t => armed_after (some v) t
  | .released :: t => armed_after none t

/-- The invariant of a record, starting from `cur`: every deleter call is on
the argument `v` of the most recent `reset(v)` (on `cur` when there was none),
and no other deleter call and no `release()` lies between that arming and the
call. -/
def consistent [DecidableEq R] (cur : Option R) : List (Event R) → Bool
  | [] => true
  | .deleted v :: t => decide (cur = some v) && consistent none t
  | .armed v :: t => consistent (some v) t
  | .released :: t => consistent none t

/-- One member call on the object; after `reset(v)` has returned, the argument
`v` of the call is recorded, and after `release()` the release. -/
def unique_resource.apply [Assignable ε R] [Deleter ε (Event R) D R]
    (self : unique_resource R D) (op : Op R) (w : World (Event R)) :
    unique_resource R D × Outcome ε (Event R) Unit :=
  match op with
  | .reset => self.reset w
  | .reset_value v =>
    match (self.reset_value v w : unique_resource R D × Outcome ε (Event R) Unit) with
    | (self1, .ok _ w1) => (self1, .ok () { w1 with out := w1.out ++ [.armed v.get] })
    | (self1, o) => (self1, o)
  | .release => (self.release, .ok () { w with out := w.out ++ [.released] })

/-- The member calls `ops` on the object, one after the other. -/
def unique_resource.run [Assignable ε R] [Deleter ε (Event R) D R] :
    List (Op R) → unique_resource R D → World (Event R) →
      unique_resource R D × Outcome ε (Event R) Unit
  | [], self, w => (self, .ok () w)
  | op :: ops, self, w =>
    match (self.apply op w : unique_resource R D × Outcome ε (Event R) Unit) with
    | (self1, .ok _ w1) => unique_resource.run ops self1 w1
    | (self1, o) => (self1, o)

/-- The member calls `ops` on the object, then its destruction. -/
def unique_resource.run_and_destroy [Assignable ε R] [Deleter ε (Event R) D R]
    (ops : List (Op R)) (self : unique_resource R D) (w : World (Event R)) :
    unique_resource R D × Outcome ε (Event R) Unit :=
  match (unique_resource.run ops self w : unique_resource R D × Outcome ε (Event R) Unit) with
  | (self1, .ok _ w1) => self1.dtor w1
  | (self1, o) => (self1, o)

end runs

/-! ## Blocks that declare several guards -/

/-- The kind of a guard: `scope_exit`, `scope_fail` or `scope_success`. -/
inductive Kind where
  | exit
  | fail
  | success
deriving DecidableEq, Repr

section blocks
variable {ε κ α EF : Type}

/-- A block `{ G1 g1(f1); ... Gn gn(fn); body }` that declares the guards `gs`
in this order and then runs `body`. A local object is destroyed when the block
is left, after the objects declared after it. -/
def block_of_guards [Constructible ε EF] [Invocable ε κ EF] :
    List (Kind × Arg EF) → (World κ → Outcome ε κ α) → World κ → Outcome ε κ α
  | [], body, w => body w
  | (.exit, ef) :: gs, body, w =>
    (basic_scope_exit.ctor ef w : Outcome ε κ (scope_exit EF)).bind
      (fun guard w1 => leave_scope (basic_scope_exit.dtor guard) (block_of_guards gs body w1))
  | (.fail, ef) :: gs, body, w =>
    (basic_scope_exit.ctor ef w : Outcome ε κ (scope_fail EF)).bind
      (fun guard w1 => leave_scope (basic_scope_exit.dtor guard) (block_of_guards gs body w1))
  | (.success, ef) :: gs, body, w =>
    (basic_scope_exit.ctor ef w : Outcome ε κ (scope_success EF)).bind
      (fun guard w1 => leave_scope (basic_scope_exit.dtor guard) (block_of_guards gs body w1))

/-- The answer of `should_execute()` at count `n` for the policy of a guard of
kind `k` that was built at count `c`. -/
def Kind.should_execute (k : Kind) (c n : Int) : Bool :=
  match k with
  | .exit => ExitPolicy.should_execute (ExitPolicy.init c : on_exit_policy) n
  | .fail => ExitPolicy.should_execute (ExitPolicy.init c : on_fail_policy) n
  | .success => ExitPolicy.should_execute (ExitPolicy.init c : on_success_policy) n

end blocks

/-- Test "Demo scope_exit, scope_fail, and scope_success" (test.cpp, lines
593-606; Demo.cpp, lines 93-106):
`try { scope_exit v(always); scope_success w(not); scope_fail x(lam); throw 42; }
catch (...) { scope_fail y(not); scope_success z(handled); }`. -/
def demo_scope_exit_fail_success (w : World String) : Outcome String String Unit :=
  try_catch
    (block_of_guards
      [(.exit, .rvalue ({ text := "always " } : Callback String String)),
        (.success, .rvalue { text := "not " }), (.fail, .lvalue { text := "called " })]
      (fun w0 => throw_ "42" w0))
    (fun _ w1 =>
      block_of_guards
        [(.fail, .rvalue ({ text := "not " } : Callback String String)),
          (.success, .rvalue { text := "handled" })]
        (fun w0 => .ok () w0) w1)
    w

/-- Test "Macros shall expand to the correct function call ..." (test.cpp, lines
684-696): `{ SCOPE_EXIT(exit); try { SCOPE_FAIL(fail); throw 42; } catch (...) { }
SCOPE_SUCCESS(success); }`. -/
def macros_test (w : World String) : Outcome String String Unit :=
  block_of_guards [(.exit, .rvalue ({ text := "exit" } : Callback String String))]
    (fun w0 =>
      (try_catch
        (block_of_guards [(.fail, .rvalue ({ text := "fail" } : Callback String String))]
          (fun w1 => throw_ "42" w1))
        (fun _ w1 => .ok () w1) w0).bind
        (fun _ w1 =>
          block_of_guards [(.success, .rvalue ({ text := "success" } : Callback String String))]
            (fun w2 => .ok () w2) w1))
    w

/-! ## Lemmas on the machine and on guard construction -/

section lemmas
variable {ε κ α β EF P : Type}

@[simp] theorem noexcept_ok (b : Bool) (a : α) (w : World κ) :
    noexcept_ b (Outcome.ok a w : Outcome ε κ α) = .ok a w := by
  cases b <;> rfl

@[simp] theorem noexcept_terminate (b : Bool) (w : World κ) :
    noexcept_ b (Outcome.terminate w : Outcome ε κ α) = .terminate w := by
  cases b <;> rfl

@[simp] theorem noexcept_false (o : Outcome ε κ α) : noexcept_ false o = o := by
  cases o <;> rfl

@[simp] theorem noexcept_true_raise (e : ε) (w : World κ) :
    noexcept_ true (Outcome.raise e w : Outcome ε κ α) = .terminate w := rfl

/-- A box whose private constructor succeeds is built by the public one, which
then releases the guard. -/
theorem box_ctor_of_init_ok {T G : Type} [Constructible ε T] [Releasable G] (t : Arg T)
    (b : _box T) (guard : G) (w : World κ)
    (h : (_box.init t : Except ε (_box T)) = .ok b) :
    (_box.ctor t guard w : Outcome ε κ (_box T × G)) = .ok (b, Releasable.release guard) w := by
  simp [_box.ctor, h, of_except, Outcome.bind]

/-- A box whose private constructor throws although the public one is not
declared `noexcept`: the exception leaves the public constructor. -/
theorem box_ctor_of_init_error {T G : Type} [Constructible ε T] [Releasable G] (t : Arg T)
    (e : ε) (guard : G) (w : World κ)
    (h : (_box.init t : Except ε (_box T)) = .error e)
    (hn : _box.noexcept_ctor ε T = false) :
    (_box.ctor t guard w : Outcome ε κ (_box T × G)) =
      .raise e (thrown w) := by
  simp [_box.ctor, h, hn, of_except, Outcome.bind, throw_]

/-- A guard whose policy refuses to execute is destroyed without effect. -/
theorem guard_dtor_of_not_should_execute [Invocable ε κ EF] [ExitPolicy P]
    (g : basic_scope_exit EF P) (w : World κ)
    (h : ExitPolicy.should_execute g.policy w.uncaught_exceptions = false) :
    (g.dtor w : Outcome ε κ Unit) = .ok () w := by
  simp [basic_scope_exit.dtor, h]

/-- A guard whose policy decides to execute runs its callback once when destroyed. -/
theorem guard_dtor_of_should_execute [Invocable ε κ EF] [ExitPolicy P]
    (g : basic_scope_exit EF P) (w : World κ)
    (h : ExitPolicy.should_execute g.policy w.uncaught_exceptions = true) :
    (g.dtor w : Outcome ε κ Unit) =
      noexcept_ (@Invocable.is_nothrow_invocable ε κ EF _) (Invocable.call g.exit_function.get w) := by
  simp [basic_scope_exit.dtor, h]

theorem on_exit_release_final : ReleaseFinal on_exit_policy := by
  intro p n _ _
  rfl

theorem on_fail_release_final : ReleaseFinal on_fail_policy := by
  intro p n _ hn
  simp only [ExitPolicy.should_execute, ExitPolicy.release, on_fail_policy.should_execute,
    on_fail_policy.release, decide_eq_false_iff_not, not_lt]
  exact hn

theorem on_success_release_final : ReleaseFinal on_success_policy := by
  intro p n hn _
  simp only [ExitPolicy.should_execute, ExitPolicy.release, on_success_policy.should_execute,
    on_success_policy.release, decide_eq_false_iff_not, ge_iff_le, not_le]
  omega

/-- Construction of a guard whose callback is stored without throwing: the
guard holds the stored callback and a fresh policy, and nothing is invoked. -/
theorem guard_ctor_of_init_ok [Constructible ε EF] [Invocable ε κ EF]
    [ExitPolicy P] (hP : ReleaseFinal P) (ef : Arg EF) (b : _box EF) (w : World κ)
    (h : (_box.init ef : Except ε (_box EF)) = .ok b)
    (hlo : 0 ≤ w.uncaught_exceptions) (hhi : w.uncaught_exceptions ≤ INT_MAX) :
    (basic_scope_exit.ctor ef w : Outcome ε κ (basic_scope_exit EF P)) =
      .ok { policy := ExitPolicy.init w.uncaught_exceptions, exit_function := b } w := by
  unfold basic_scope_exit.ctor
  by_cases hn : _noexcept_ctor_from ε EF = true
  · simp [hn, box_ctor_of_init_ok _ _ _ _ h, Outcome.bind]
  · have hn2 : _noexcept_ctor_from ε EF = false := by simpa using hn
    simp only [hn2, box_ctor_of_init_ok _ _ _ _ h, noexcept_false]
    have hd : ((Releasable.release (basic_scope_exit.ctor_ref ef.get w :
        basic_scope_exit (Ref EF) P)).dtor w : Outcome ε κ Unit) = .ok () w := by
      apply guard_dtor_of_not_should_execute
      exact hP _ _ hlo hhi
    simp [hd, Outcome.bind]

end lemmas

/-! ## Claims on the guards -/

section guard_claims
variable {ε κ F : Type}

/-- C1: a guard is built from a callback that is stored as `f`, and destroyed in
a world where `std::uncaught_exceptions()` has the value it had at
construction. Construction succeeds and invokes nothing. The destructor of a
`scope_exit` guard and of a `scope_success` guard performs exactly one call
`f()`; the destructor of a `scope_fail` guard does nothing. -/
theorem guard_destroyed_without_exception [Constructible ε F] [Invocable ε κ F]
    (a : Arg F) (f : F) (w w1 : World κ)
    (hstore : (_box.init a : Except ε (_box F)) = .ok ⟨f⟩)
    (hlo : 0 ≤ w.uncaught_exceptions) (hhi : w.uncaught_exceptions ≤ INT_MAX)
    (hsame : w1.uncaught_exceptions = w.uncaught_exceptions) :
    (∃ g : scope_exit F,
      (basic_scope_exit.ctor a w : Outcome ε κ (scope_exit F)) = .ok g w ∧
      (g.dtor w1 : Outcome ε κ Unit) =
        noexcept_ (@Invocable.is_nothrow_invocable ε κ F _) (Invocable.call f w1)) ∧
    (∃ g : scope_success F,
      (basic_scope_exit.ctor a w : Outcome ε κ (scope_success F)) = .ok g w ∧
      (g.dtor w1 : Outcome ε κ Unit) =
        noexcept_ (@Invocable.is_nothrow_invocable ε κ F _) (Invocable.call f w1)) ∧
    (∃ g : scope_fail F,
      (basic_scope_exit.ctor a w : Outcome ε κ (scope_fail F)) = .ok g w ∧
      (g.dtor w1 : Outcome ε κ Unit) = .ok () w1) := by
  refine ⟨⟨_, guard_ctor_of_init_ok on_exit_release_final a _ w hstore hlo hhi, ?_⟩,
    ⟨_, guard_ctor_of_init_ok on_success_release_final a _ w hstore hlo hhi, ?_⟩,
    ⟨_, guard_ctor_of_init_ok on_fail_release_final a _ w hstore hlo hhi, ?_⟩⟩
  · exact guard_dtor_of_should_execute _ w1 rfl
  · apply guard_dtor_of_should_execute
    simp [ExitPolicy.should_execute, ExitPolicy.init, on_success_policy.should_execute, hsame]
  · apply guard_dtor_of_not_should_execute
    simp [ExitPolicy.should_execute, ExitPolicy.init, on_fail_policy.should_execute, hsame]

/-- Witness of C1: the lambda that writes "done", built and destroyed with no
exception in flight. -/
theorem guard_destroyed_without_exception_witness :
    ((_box.init (.rvalue done) : Except String (_box (Callback String String))) = .ok ⟨done⟩ ∧
      0 ≤ quiet.uncaught_exceptions ∧ quiet.uncaught_exceptions ≤ INT_MAX) ∧
    (∃ g : scope_exit (Callback String String),
      (basic_scope_exit.ctor (.rvalue done) quiet :
        Outcome String String (scope_exit (Callback String String))) = .ok g quiet ∧
      (g.dtor quiet : Outcome String String Unit) =
        noexcept_ (@Invocable.is_nothrow_invocable String String (Callback String String) _)
          (Invocable.call done quiet)) ∧
    (∃ g : scope_success (Callback String String),
      (basic_scope_exit.ctor (.rvalue done) quiet :
        Outcome String String (scope_success (Callback String String))) = .ok g quiet ∧
      (g.dtor quiet : Outcome String String Unit) =
        noexcept_ (@Invocable.is_nothrow_invocable String String (Callback String String) _)
          (Invocable.call done quiet)) ∧
    (∃ g : scope_fail (Callback String String),
      (basic_scope_exit.ctor (.rvalue done) quiet :
        Outcome String String (scope_fail (Callback String String))) = .ok g quiet ∧
      (g.dtor quiet : Outcome String String Unit) = .ok () quiet) :=
  ⟨⟨rfl, by decide, by decide⟩,
    @guard_destroyed_without_exception String String (Callback String String) _ _
      (.rvalue done) done quiet quiet rfl (by decide) (by decide) rfl⟩

/-- C2, as stated, fails: in `{ G guard(f); try { throw e; } catch (...) { } }`
the exception is thrown and caught before the scope of the guard ends. The
`scope_fail` guard then writes nothing, where one firing would have written
"done"; the `scope_success` guard writes "done", so it fires. -/
theorem throw_caught_within_guard_counterexample :
    (throw_caught_within_guard on_fail_policy (.rvalue done) "e" quiet :
      Outcome String String Unit) = .ok () { uncaught_exceptions := 0, out := [] } ∧
    (throw_caught_within_guard on_fail_policy (.rvalue done) "e" quiet :
      Outcome String String Unit).world.out ≠ ["done"] ∧
    (throw_caught_within_guard on_success_policy (.rvalue done) "e" quiet :
      Outcome String String Unit) = .ok () { uncaught_exceptions := 0, out := ["done"] } ∧
    (throw_caught_within_guard on_success_policy (.rvalue done) "e" quiet :
      Outcome String String Unit).world.out ≠ [] := by
  refine ⟨?_, ?_, ?_, ?_⟩ <;> decide

/-- C2, amended: in `try { G guard(a); throw e; } catch (...) { }` the exception
unwinds the scope of the guard and is caught afterwards. With `f` the stored
callback and `w1` the world after one call `f()` made while `e` is in flight:
for `scope_fail` and for `scope_exit` the program ends in `w1` with `e` caught
(the callback ran exactly once); for `scope_success` it ends in the initial
world (the callback did not run). -/
theorem guard_unwound_by_exception [Constructible ε F] [Invocable ε κ F]
    (a : Arg F) (f : F) (e : ε) (w w1 : World κ)
    (hstore : (_box.init a : Except ε (_box F)) = .ok ⟨f⟩)
    (hlo : 0 ≤ w.uncaught_exceptions) (hhi : w.uncaught_exceptions ≤ INT_MAX)
    (hcall : (Invocable.call f (thrown w) : Outcome ε κ Unit) = .ok () w1) :
    (throw_unwinding_guard on_fail_policy a e w : Outcome ε κ Unit) = .ok () (caught w1) ∧
    (throw_unwinding_guard on_exit_policy a e w : Outcome ε κ Unit) = .ok () (caught w1) ∧
    (throw_unwinding_guard on_success_policy a e w : Outcome ε κ Unit) = .ok () w := by
  refine ⟨?_, ?_, ?_⟩
  · unfold throw_unwinding_guard
    rw [try_catch, guard_ctor_of_init_ok on_fail_release_final a _ w hstore hlo hhi]
    have hd : (basic_scope_exit.dtor
        ({ policy := ExitPolicy.init w.uncaught_exceptions, exit_function := ⟨f⟩ } :
          scope_fail F) (thrown w) : Outcome ε κ Unit) = .ok () w1 := by
      rw [guard_dtor_of_should_execute, _box.get, hcall, noexcept_ok]
      simp [ExitPolicy.should_execute, ExitPolicy.init, on_fail_policy.should_execute, thrown]
    simp [Outcome.bind, leave_scope, throw_, unwind, hd]
  · unfold throw_unwinding_guard
    rw [try_catch, guard_ctor_of_init_ok on_exit_release_final a _ w hstore hlo hhi]
    have hd : (basic_scope_exit.dtor
        ({ policy := ExitPolicy.init w.uncaught_exceptions, exit_function := ⟨f⟩ } :
          scope_exit F) (thrown w) : Outcome ε κ Unit) = .ok () w1 := by
      rw [guard_dtor_of_should_execute, _box.get, hcall, noexcept_ok]
      rfl
    simp [Outcome.bind, leave_scope, throw_, unwind, hd]
  · unfold throw_unwinding_guard
    rw [try_catch, guard_ctor_of_init_ok on_success_release_final a _ w hstore hlo hhi]
    have hd : (basic_scope_exit.dtor
        ({ policy := ExitPolicy.init w.uncaught_exceptions, exit_function := ⟨f⟩ } :
          scope_success F) (thrown w) : Outcome ε κ Unit) = .ok () (thrown w) := by
      apply guard_dtor_of_not_should_execute
      simp [ExitPolicy.should_execute, ExitPolicy.init, on_success_policy.should_execute, thrown]
    simp only [Outcome.bind, leave_scope, throw_, unwind, hd]
    simp [caught, thrown]

/-- Witness of C2, amended: the lambda that writes "done" in
`try { G guard(f); throw e; } catch (...) { }` (test.cpp, lines 113-117). -/
theorem guard_unwound_by_exception_witness :
    ((_box.init (.rvalue done) : Except String (_box (Callback String String))) = .ok ⟨done⟩ ∧
      0 ≤ quiet.uncaught_exceptions ∧ quiet.uncaught_exceptions ≤ INT_MAX ∧
      (Invocable.call done (thrown quiet) : Outcome String String Unit) =
        .ok () { uncaught_exceptions := 1, out := ["done"] }) ∧
    ((throw_unwinding_guard on_fail_policy (.rvalue done) "e" quiet :
        Outcome String String Unit) =
        .ok () (caught { uncaught_exceptions := 1, out := ["done"] }) ∧
      (throw_unwinding_guard on_exit_policy (.rvalue done) "e" quiet :
        Outcome String String Unit) =
        .ok () (caught { uncaught_exceptions := 1, out := ["done"] }) ∧
      (throw_unwinding_guard on_success_policy (.rvalue done) "e" quiet :
        Outcome String String Unit) = .ok () quiet) :=
  ⟨⟨rfl, by decide, by decide, rfl⟩,
    @guard_unwound_by_exception String String (Callback String String) _ _
      (.rvalue done) done "e" quiet { uncaught_exceptions := 1, out := ["done"] }
      rfl (by decide) (by decide) rfl⟩

/-- C3: whatever the guard kind, the callback, the state of the guard and the
count of exceptions in flight (a value of type `int`, not negative), a guard
on which `release()` was called is destroyed without invoking its callback. -/
theorem released_guard_never_fires [Invocable ε κ F] (w : World κ)
    (hlo : 0 ≤ w.uncaught_exceptions) (hhi : w.uncaught_exceptions ≤ INT_MAX) :
    (∀ g : scope_exit F, (g.release.dtor w : Outcome ε κ Unit) = .ok () w) ∧
    (∀ g : scope_fail F, (g.release.dtor w : Outcome ε κ Unit) = .ok () w) ∧
    (∀ g : scope_success F, (g.release.dtor w : Outcome ε κ Unit) = .ok () w) := by
  refine ⟨fun g => ?_, fun g => ?_, fun g => ?_⟩
  · exact guard_dtor_of_not_should_execute _ w (on_exit_release_final g.policy _ hlo hhi)
  · exact guard_dtor_of_not_should_execute _ w (on_fail_release_final g.policy _ hlo hhi)
  · exact guard_dtor_of_not_should_execute _ w (on_success_release_final g.policy _ hlo hhi)

/-- Witness of C3: released guards destroyed while one exception is in flight. -/
theorem released_guard_never_fires_witness :
    (0 ≤ (thrown quiet).uncaught_exceptions ∧ (thrown quiet).uncaught_exceptions ≤ INT_MAX) ∧
    ((∀ g : scope_exit (Callback String String),
        (g.release.dtor (thrown quiet) : Outcome String String Unit) = .ok () (thrown quiet)) ∧
      (∀ g : scope_fail (Callback String String),
        (g.release.dtor (thrown quiet) : Outcome String String Unit) = .ok () (thrown quiet)) ∧
      (∀ g : scope_success (Callback String String),
        (g.release.dtor (thrown quiet) : Outcome String String Unit) = .ok () (thrown quiet))) :=
  ⟨⟨by decide, by decide⟩,
    @released_guard_never_fires String String (Callback String String) _ (thrown quiet)
      (by decide) (by decide)⟩

/-- C4, as stated, fails for `scope_success`: built from the `throwing_copy`
object of the test (test.cpp, lines 218-223), the constructor throws and
nothing has been written, where one execution of the callback would have
written "Oh noes!!!". It also fails for `scope_exit` built from an lvalue of a
type with a `noexcept` move constructor and a throwing copy constructor: the
constructor is then `noexcept(true)`, no exception leaves it and nothing has
been written. -/
theorem scope_success_throwing_copy_counterexample :
    (basic_scope_exit.ctor (.lvalue { sz_ := "Oh noes!!!" }) quiet :
      Outcome String String (scope_success throwing_copy)) =
      .raise "throwing_copy copy attempt:" { uncaught_exceptions := 1, out := [] } ∧
    (basic_scope_exit.ctor (.lvalue { sz_ := "Oh noes!!!" }) quiet :
      Outcome String String (scope_success throwing_copy)).world.out ≠ ["Oh noes!!!"] ∧
    (basic_scope_exit.ctor (.lvalue { sz_ := "called anyway" }) quiet :
      Outcome String String (scope_exit noexcept_move_throwing_copy)) =
      .terminate { uncaught_exceptions := 1, out := [] } := by
  refine ⟨?_, ?_, ?_⟩ <;> decide

/-- C4, amended: a guard is built from a callback, lvalue or rvalue, that
cannot be stored because the copy made of it throws `e`, the constructor of the
guard not being declared `noexcept` for the type of the callback. The
constructor of `scope_exit` and of `scope_fail` ends as the unwinding by `e`
through exactly one call of the callback ends (the call is made by the failsafe
guard while `e` is in flight): when that call returns, in `w1`, the constructor
exits with `e` in `w1`. The constructor of `scope_success` exits with `e` and
has not run the callback. -/
theorem guard_from_throwing_copy [Constructible ε F] [Invocable ε κ F]
    (a : Arg F) (e : ε) (w : World κ)
    (hstore : (_box.init a : Except ε (_box F)) = .error e)
    (hnx : _noexcept_ctor_from ε F = false) :
    (basic_scope_exit.ctor a w : Outcome ε κ (scope_exit F)) =
      unwind (fun w0 =>
        noexcept_ (@Invocable.is_nothrow_invocable ε κ F _) (Invocable.call a.get w0))
        e (thrown w) ∧
    (basic_scope_exit.ctor a w : Outcome ε κ (scope_fail F)) =
      unwind (fun w0 =>
        noexcept_ (@Invocable.is_nothrow_invocable ε κ F _) (Invocable.call a.get w0))
        e (thrown w) ∧
    (∀ w1 : World κ, (Invocable.call a.get (thrown w) : Outcome ε κ Unit) = .ok () w1 →
      (basic_scope_exit.ctor a w : Outcome ε κ (scope_exit F)) = .raise e w1 ∧
      (basic_scope_exit.ctor a w : Outcome ε κ (scope_fail F)) = .raise e w1) ∧
    (basic_scope_exit.ctor a w : Outcome ε κ (scope_success F)) = .raise e (thrown w) := by
  have hnx2 : _box.noexcept_ctor ε F = false := hnx
  have hexit : (basic_scope_exit.ctor a w : Outcome ε κ (scope_exit F)) =
      unwind (fun w0 =>
        noexcept_ (@Invocable.is_nothrow_invocable ε κ F _) (Invocable.call a.get w0))
        e (thrown w) := by
    unfold basic_scope_exit.ctor
    simp only [hnx, box_ctor_of_init_error _ _ _ _ hstore hnx2, noexcept_false]
    have hd : (basic_scope_exit.dtor (basic_scope_exit.ctor_ref a.get w :
        basic_scope_exit (Ref F) on_exit_policy) (thrown w) : Outcome ε κ Unit) =
        noexcept_ (@Invocable.is_nothrow_invocable ε κ F _)
          (Invocable.call a.get (thrown w)) := by
      rw [guard_dtor_of_should_execute _ _ rfl]
      rfl
    simp [unwind, hd]
  have hfail : (basic_scope_exit.ctor a w : Outcome ε κ (scope_fail F)) =
      unwind (fun w0 =>
        noexcept_ (@Invocable.is_nothrow_invocable ε κ F _) (Invocable.call a.get w0))
        e (thrown w) := by
    unfold basic_scope_exit.ctor
    simp only [hnx, box_ctor_of_init_error _ _ _ _ hstore hnx2, noexcept_false]
    have hd : (basic_scope_exit.dtor (basic_scope_exit.ctor_ref a.get w :
        basic_scope_exit (Ref F) on_fail_policy) (thrown w) : Outcome ε κ Unit) =
        noexcept_ (@Invocable.is_nothrow_invocable ε κ F _)
          (Invocable.call a.get (thrown w)) := by
      rw [guard_dtor_of_should_execute]
      · rfl
      · simp [ExitPolicy.should_execute, ExitPolicy.init, on_fail_policy.should_execute, thrown,
          basic_scope_exit.ctor_ref]
    simp [unwind, hd]
  refine ⟨hexit, hfail, ?_, ?_⟩
  · intro w1 hcall
    rw [hexit, hfail]
    simp [unwind, hcall]
  · unfold basic_scope_exit.ctor
    simp only [hnx, box_ctor_of_init_error _ _ _ _ hstore hnx2, noexcept_false]
    have hd : (basic_scope_exit.dtor (basic_scope_exit.ctor_ref a.get w :
        basic_scope_exit (Ref F) on_success_policy) (thrown w) : Outcome ε κ Unit) =
        .ok () (thrown w) := by
      apply guard_dtor_of_not_should_execute
      simp [ExitPolicy.should_execute, ExitPolicy.init, on_success_policy.should_execute, thrown,
        basic_scope_exit.ctor_ref]
    simp [unwind, hd]

/-- Witness of C4, amended: the `throwing_copy` object of the tests (test.cpp,
lines 211-230), passed as the lvalue `c`. -/
theorem guard_from_throwing_copy_witness :
    ((_box.init (.lvalue ({ sz_ := "called anyway" } : throwing_copy)) :
        Except String (_box throwing_copy)) = .error "throwing_copy copy attempt:" ∧
      _noexcept_ctor_from String throwing_copy = false ∧
      (Invocable.call ({ sz_ := "called anyway" } : throwing_copy) (thrown quiet) :
        Outcome String String Unit) =
        .ok () { uncaught_exceptions := 1, out := ["called anyway"] }) ∧
    ((basic_scope_exit.ctor (.lvalue { sz_ := "called anyway" }) quiet :
        Outcome String String (scope_exit throwing_copy)) =
        .raise "throwing_copy copy attempt:"
          { uncaught_exceptions := 1, out := ["called anyway"] } ∧
      (basic_scope_exit.ctor (.lvalue { sz_ := "called anyway" }) quiet :
        Outcome String String (scope_fail throwing_copy)) =
        .raise "throwing_copy copy attempt:"
          { uncaught_exceptions := 1, out := ["called anyway"] }) ∧
    (basic_scope_exit.ctor (.lvalue { sz_ := "called anyway" }) quiet :
      Outcome String String (scope_success throwing_copy)) =
      .raise "throwing_copy copy attempt:" (thrown quiet) :=
  ⟨⟨rfl, rfl, rfl⟩,
    (@guard_from_throwing_copy String String throwing_copy _ _
      (.lvalue { sz_ := "called anyway" }) "throwing_copy copy attempt:" quiet
      (by rfl) (by rfl)).2.2.1 { uncaught_exceptions := 1, out := ["called anyway"] } (by rfl),
    (@guard_from_throwing_copy String String throwing_copy _ _
      (.lvalue { sz_ := "called anyway" }) "throwing_copy copy attempt:" quiet
      (by rfl) (by rfl)).2.2.2⟩

end guard_claims

/-! ## Lemmas on `unique_resource` -/

section unique_lemmas
variable {ε κ T R D : Type}

@[simp] theorem noexcept_idem (b : Bool) (o : Outcome ε κ Unit) :
    noexcept_ b (noexcept_ b o) = noexcept_ b o := by
  cases b <;> cases o <;> rfl

/-- A guard around a lambda is built without throwing and without a failsafe. -/
theorem guard_ctor_lambda {P : Type} [ExitPolicy P] (fallback : Lambda ε κ) (w : World κ) :
    (basic_scope_exit.ctor (.rvalue fallback) w : Outcome ε κ (basic_scope_exit (Lambda ε κ) P)) =
      .ok { policy := ExitPolicy.init w.uncaught_exceptions, exit_function := ⟨fallback⟩ } w := by
  simp [basic_scope_exit.ctor, _noexcept_ctor_from, _box.noexcept_ctor, move_if_noexcept_copies,
    Constructible.is_nothrow_move_constructible, Constructible.is_copy_constructible,
    _box.ctor, _box.init, Constructible.move_construct, Except.map, of_except, Outcome.bind]

/-- A member whose value is stored without throwing is initialised without
running the fallback. -/
theorem ctor_with_fallback_of_init_ok [Constructible ε T] (t : Arg T) (b : _box T)
    (fallback : Lambda ε κ) (w : World κ)
    (h : (_box.init t : Except ε (_box T)) = .ok b) :
    (_box.ctor_with_fallback t fallback w : Outcome ε κ (_box T)) = .ok b w := by
  unfold _box.ctor_with_fallback
  rw [guard_ctor_lambda]
  simp only [Outcome.bind, box_ctor_of_init_ok _ _ _ _ h]
  have hd : (basic_scope_exit.dtor (Releasable.release
      ({ policy := ExitPolicy.init w.uncaught_exceptions, exit_function := ⟨fallback⟩ } :
        scope_exit (Lambda ε κ))) w : Outcome ε κ Unit) = .ok () w :=
    guard_dtor_of_not_should_execute _ w rfl
  simp [hd]

/-- The private constructor, when both values are stored without throwing. -/
theorem ctor3_of_init_ok [Constructible ε R] [Constructible ε D] [Deleter ε κ D R]
    (ra : Arg R) (da : Arg D) (br : _box R) (bd : _box D) (should_run : Bool) (w : World κ)
    (hr : (_box.init ra : Except ε (_box R)) = .ok br)
    (hd : (_box.init da : Except ε (_box D)) = .ok bd) :
    (unique_resource.ctor3 ra da should_run w : Outcome ε κ (unique_resource R D)) =
      .ok { resource := br, deleter := bd, execute_on_destruction := should_run } w := by
  unfold unique_resource.ctor3
  rw [ctor_with_fallback_of_init_ok ra br _ w hr]
  simp only [Outcome.bind]
  rw [ctor_with_fallback_of_init_ok da bd _ w hd]
  simp

/-- Destruction of an object that owns: one deleter call on the held resource. -/
theorem unique_dtor_of_owns [Deleter ε κ D R] (u : unique_resource R D) (w : World κ)
    (h : u.execute_on_destruction = true) :
    (u.dtor w : unique_resource R D × Outcome ε κ Unit) =
      (u.release, noexcept_ true (Deleter.call u.get_deleter u.get w)) := by
  simp [unique_resource.dtor, unique_resource.reset, h, unique_resource.release,
    unique_resource.get, unique_resource.get_deleter]

/-- Destruction of an object that does not own: nothing happens. -/
theorem unique_dtor_of_not_owns [Deleter ε κ D R] (u : unique_resource R D) (w : World κ)
    (h : u.execute_on_destruction = false) :
    (u.dtor w : unique_resource R D × Outcome ε κ Unit) = (u, .ok () w) := by
  simp [unique_resource.dtor, unique_resource.reset, h]

end unique_lemmas

/-! ## Claims on `unique_resource` -/

section unique_claims
variable {ε κ R D S : Type}

/-- C5: the two-argument constructor, given a resource stored as `r` and a
deleter stored as `d`, invokes nothing and yields an object that holds `r` and
`d` and owns (`execute_on_destruction` is true); destroying that object
performs exactly one call `d(r)` and leaves it not owning. -/
theorem unique_resource_owns_and_deletes_once [Constructible ε R] [Constructible ε D]
    [Deleter ε κ D R] (ra : Arg R) (da : Arg D) (r : R) (d : D) (w w1 : World κ)
    (hr : (_box.init ra : Except ε (_box R)) = .ok ⟨r⟩)
    (hd : (_box.init da : Except ε (_box D)) = .ok ⟨d⟩) :
    (unique_resource.ctor ra da w : Outcome ε κ (unique_resource R D)) =
      .ok { resource := ⟨r⟩, deleter := ⟨d⟩, execute_on_destruction := true } w ∧
    (unique_resource.dtor { resource := ⟨r⟩, deleter := ⟨d⟩, execute_on_destruction := true } w1 :
      unique_resource R D × Outcome ε κ Unit) =
      ({ resource := ⟨r⟩, deleter := ⟨d⟩, execute_on_destruction := false },
        noexcept_ true (Deleter.call d r w1)) := by
  constructor
  · unfold unique_resource.ctor
    rw [ctor_with_fallback_of_init_ok ra ⟨r⟩ _ w hr]
    simp only [Outcome.bind]
    rw [ctor_with_fallback_of_init_ok da ⟨d⟩ _ w hd]
    simp
  · exact unique_dtor_of_owns _ w1 rfl

/-- Witness of C5: `unique_resource(1, deleter)` with the deleter that writes
its argument. -/
theorem unique_resource_owns_and_deletes_once_witness :
    ((_box.init (.rvalue (1 : Int)) : Except String (_box Int)) = .ok ⟨1⟩ ∧
      (_box.init (.rvalue logging_deleter.mk) : Except String (_box logging_deleter)) =
        .ok ⟨logging_deleter.mk⟩) ∧
    ((unique_resource.ctor (.rvalue (1 : Int)) (.rvalue logging_deleter.mk)
        { uncaught_exceptions := 0, out := [] } :
        Outcome String Int (unique_resource Int logging_deleter)) =
        .ok { resource := ⟨1⟩, deleter := ⟨logging_deleter.mk⟩, execute_on_destruction := true }
          { uncaught_exceptions := 0, out := [] } ∧
      (unique_resource.dtor
        { resource := ⟨(1 : Int)⟩, deleter := ⟨logging_deleter.mk⟩, execute_on_destruction := true }
        { uncaught_exceptions := 0, out := [] } :
        unique_resource Int logging_deleter × Outcome String Int Unit) =
        ({ resource := ⟨1⟩, deleter := ⟨logging_deleter.mk⟩, execute_on_destruction := false },
          noexcept_ true (Deleter.call logging_deleter.mk (1 : Int)
            { uncaught_exceptions := 0, out := [] }))) :=
  ⟨⟨rfl, rfl⟩,
    @unique_resource_owns_and_deletes_once String Int Int logging_deleter _ _ _
      (.rvalue 1) (.rvalue logging_deleter.mk) 1 logging_deleter.mk
      { uncaught_exceptions := 0, out := [] } { uncaught_exceptions := 0, out := [] } rfl rfl⟩

/-- C6: on an object that owns and holds `a`, `reset(b)` with an assignment that
stores `b` without throwing and a deleter call `d(a)` that returns (leading
from `w` to `w1`) ends in `w1`: exactly one call `d(a)` was made, on the old
value. Afterwards `get()` is `b` and the object owns; destroying it performs
exactly one call `d(b)`. The test that builds the resource with 1 and resets
it with 2 writes exactly 1 then 2. -/
theorem reset_value_deletes_old_then_adopts [Assignable ε R] [Deleter ε κ D R]
    (u : unique_resource R D) (ba : Arg R) (b : R) (w w1 w2 : World κ)
    (hown : u.execute_on_destruction = true)
    (hassign : (_box.assign u.resource ba : Except ε (_box R)) = .ok ⟨b⟩)
    (hdel : (Deleter.call u.get_deleter u.get w : Outcome ε κ Unit) = .ok () w1)
    (hcnt : w1.uncaught_exceptions = w.uncaught_exceptions) :
    (u.reset_value ba w : unique_resource R D × Outcome ε κ Unit) =
      ({ resource := ⟨b⟩, deleter := u.deleter, execute_on_destruction := true }, .ok () w1) ∧
    (u.reset_value ba w : unique_resource R D × Outcome ε κ Unit).1.get = b ∧
    (unique_resource.dtor
      { resource := ⟨b⟩, deleter := u.deleter, execute_on_destruction := true } w2 :
      unique_resource R D × Outcome ε κ Unit) =
      ({ resource := ⟨b⟩, deleter := u.deleter, execute_on_destruction := false },
        noexcept_ true (Deleter.call u.get_deleter b w2)) ∧
    unique_resource_semantics_reset { uncaught_exceptions := 0, out := [] } =
      .ok () { uncaught_exceptions := 0, out := [1, 2] } := by
  have hreset : (u.reset w : unique_resource R D × Outcome ε κ Unit) =
      ({ u with execute_on_destruction := false }, .ok () w1) := by
    have hdel2 : (Deleter.call u.deleter.get u.resource.get w : Outcome ε κ Unit) =
        .ok () w1 := hdel
    simp [unique_resource.reset, hown, unique_resource.get, unique_resource.get_deleter, hdel2]
  have hguard : (basic_scope_exit.dtor
      ({ policy := ExitPolicy.init w.uncaught_exceptions,
         exit_function := ⟨⟨fun w0 => Deleter.call u.get_deleter ba.get w0⟩⟩ } :
        scope_fail (Lambda ε κ)) w1 : Outcome ε κ Unit) = .ok () w1 := by
    apply guard_dtor_of_not_should_execute
    simp [ExitPolicy.should_execute, ExitPolicy.init, on_fail_policy.should_execute, hcnt]
  have hmain : (u.reset_value ba w : unique_resource R D × Outcome ε κ Unit) =
      ({ resource := ⟨b⟩, deleter := u.deleter, execute_on_destruction := true },
        .ok () w1) := by
    have hbox : (_box.reset u.resource ba w1 : Outcome ε κ (_box R)) = .ok ⟨b⟩ w1 := by
      simp [_box.reset, hassign, of_except]
    unfold unique_resource.reset_value
    simp only [guard_ctor_lambda, hreset, hbox, leave_scope, hguard, Outcome.bind,
      noexcept_ok]
  refine ⟨hmain, ?_, ?_, ?_⟩
  · rw [hmain]
    rfl
  · exact unique_dtor_of_owns _ w2 rfl
  · decide

/-- Witness of C6: the object holding 1 is reset with 2 (test.cpp, lines 275-282). -/
theorem reset_value_deletes_old_then_adopts_witness :
    ((_box.assign (⟨1⟩ : _box Int) (.rvalue 2) : Except String (_box Int)) = .ok ⟨2⟩ ∧
      (Deleter.call logging_deleter.mk (1 : Int) { uncaught_exceptions := 0, out := [] } :
        Outcome String Int Unit) = .ok () { uncaught_exceptions := 0, out := [1] }) ∧
    (unique_resource.reset_value
      { resource := ⟨(1 : Int)⟩, deleter := ⟨logging_deleter.mk⟩, execute_on_destruction := true }
      (.rvalue 2) { uncaught_exceptions := 0, out := [] } :
      unique_resource Int logging_deleter × Outcome String Int Unit) =
      ({ resource := ⟨2⟩, deleter := ⟨logging_deleter.mk⟩, execute_on_destruction := true },
        .ok () { uncaught_exceptions := 0, out := [1] }) :=
  ⟨⟨rfl, rfl⟩,
    (@reset_value_deletes_old_then_adopts String Int Int logging_deleter _ _
      { resource := ⟨1⟩, deleter := ⟨logging_deleter.mk⟩, execute_on_destruction := true }
      (.rvalue 2) 2 { uncaught_exceptions := 0, out := [] }
      { uncaught_exceptions := 0, out := [1] } { uncaught_exceptions := 0, out := [1] }
      (by rfl) (by rfl) (by rfl) (by rfl)).1⟩

/-- C7: `reset()` on an object that owns clears `execute_on_destruction` and
performs exactly one call of the deleter on the held resource; on an object
that does not own it changes nothing and invokes nothing; `reset()` twice in a
row leaves the same object and the same world as `reset()` once. -/
theorem reset_idempotent [Deleter ε κ D R] (u : unique_resource R D) (w : World κ) :
    (u.reset w : unique_resource R D × Outcome ε κ Unit) =
      (if u.execute_on_destruction then
        ({ u with execute_on_destruction := false },
          noexcept_ true (Deleter.call u.get_deleter u.get w))
      else (u, .ok () w)) ∧
    (u.reset_twice w : unique_resource R D × Outcome ε κ Unit) = u.reset w := by
  constructor
  · cases h : u.execute_on_destruction <;>
      simp [unique_resource.reset, h, unique_resource.get, unique_resource.get_deleter]
  · unfold unique_resource.reset_twice
    cases h : u.execute_on_destruction
    · simp [unique_resource.reset, h]
    · simp only [unique_resource.reset, h, if_true]
      cases hc : noexcept_ true
        (Deleter.call (unique_resource.get_deleter { u with execute_on_destruction := false })
          (unique_resource.get { u with execute_on_destruction := false }) w :
          Outcome ε κ Unit) <;> simp

/-- C8: `release()` clears `execute_on_destruction`, keeps the resource and the
deleter, and touches nothing else (it has no access to the world, so it
invokes nothing); destroying the object afterwards invokes nothing. -/
theorem release_then_destroy [Deleter ε κ D R] (u : unique_resource R D) (w : World κ) :
    u.release.execute_on_destruction = false ∧ u.release.get = u.get ∧
    u.release.get_deleter = u.get_deleter ∧
    (u.release.dtor w : unique_resource R D × Outcome ε κ Unit) = (u.release, .ok () w) :=
  ⟨rfl, rfl, rfl, unique_dtor_of_not_owns _ w rfl⟩

/-- C9: `make_unique_resource_checked(r, invalid, d)`, when `r` is stored as
`r1`, `d` as `d1`, and `r == invalid` evaluates to `equal`, invokes nothing and
returns an object that holds `r1` and owns iff `equal` is false; destroying
that object does nothing when `equal` is true and performs exactly one call
`d1(r1)` otherwise. -/
theorem make_unique_resource_checked_owns_iff_valid [Constructible ε R] [Constructible ε D]
    [Deleter ε κ D R] [EqualityComparable ε R S] (ra : Arg R) (invalid : S) (da : Arg D)
    (r1 : R) (d1 : D) (equal : Bool) (w w1 : World κ)
    (hr : (_box.init ra : Except ε (_box R)) = .ok ⟨r1⟩)
    (hd : (_box.init da : Except ε (_box D)) = .ok ⟨d1⟩)
    (heq : (EqualityComparable.eq ra.get invalid : Except ε Bool) = .ok equal) :
    (make_unique_resource_checked ra invalid da w : Outcome ε κ (unique_resource R D)) =
      .ok { resource := ⟨r1⟩, deleter := ⟨d1⟩, execute_on_destruction := !equal } w ∧
    (unique_resource.dtor
      { resource := ⟨r1⟩, deleter := ⟨d1⟩, execute_on_destruction := !equal } w1 :
      unique_resource R D × Outcome ε κ Unit) =
      ({ resource := ⟨r1⟩, deleter := ⟨d1⟩, execute_on_destruction := false },
        if equal then .ok () w1 else noexcept_ true (Deleter.call d1 r1 w1)) := by
  constructor
  · unfold make_unique_resource_checked factory_holder.special_maker
    simp [heq, of_except, Outcome.bind, ctor3_of_init_ok ra da ⟨r1⟩ ⟨d1⟩ _ w hr hd]
  · cases equal
    · exact unique_dtor_of_owns _ w1 rfl
    · exact unique_dtor_of_not_owns _ w1 rfl

/-- Witness of C9: the candidate 0 with sentinel -1 (test.cpp, lines 382-390). -/
theorem make_unique_resource_checked_owns_iff_valid_witness :
    ((_box.init (.rvalue (0 : Int)) : Except String (_box Int)) = .ok ⟨0⟩ ∧
      (_box.init (.rvalue logging_deleter.mk) : Except String (_box logging_deleter)) =
        .ok ⟨logging_deleter.mk⟩ ∧
      (EqualityComparable.eq (Arg.rvalue (0 : Int)).get (-1 : Int) : Except String Bool) =
        .ok false) ∧
    (make_unique_resource_checked (.rvalue (0 : Int)) (-1 : Int) (.rvalue logging_deleter.mk)
      { uncaught_exceptions := 0, out := [] } :
      Outcome String Int (unique_resource Int logging_deleter)) =
      .ok { resource := ⟨0⟩, deleter := ⟨logging_deleter.mk⟩, execute_on_destruction := !false }
        { uncaught_exceptions := 0, out := [] } :=
  ⟨⟨rfl, rfl, rfl⟩,
    (@make_unique_resource_checked_owns_iff_valid String Int Int logging_deleter Int _ _ _ _
      (.rvalue 0) (-1) (.rvalue logging_deleter.mk) 0 logging_deleter.mk false
      { uncaught_exceptions := 0, out := [] } { uncaught_exceptions := 0, out := [] }
      (by rfl) (by rfl) (by rfl)).1⟩

/-- C10: move construction from `src`, when the resource and the deleter are
transferred unchanged and without throwing, invokes nothing, yields an object
`dst` with the resource, the deleter and the ownership flag `src` had, and
leaves `src` not owning. Destroying `src` afterwards invokes nothing;
destroying `dst` performs exactly one call of the deleter on the resource when
`src` owned, and nothing when it did not. -/
theorem move_ctor_transfers_ownership [Constructible ε R] [Constructible ε D]
    [Deleter ε κ D R] (src : unique_resource R D) (w w1 w2 : World κ)
    (hr : (_box.init (.rvalue src.resource.move) : Except ε (_box R)) = .ok src.resource)
    (hd : (_box.init (.rvalue src.deleter.move) : Except ε (_box D)) = .ok src.deleter) :
    ∃ dst : unique_resource R D,
      (src.move_ctor w : unique_resource R D × Outcome ε κ (unique_resource R D)) =
        (src.release, .ok dst w) ∧
      dst.get = src.get ∧ dst.get_deleter = src.get_deleter ∧
      dst.execute_on_destruction = src.execute_on_destruction ∧
      (src.release.dtor w1 : unique_resource R D × Outcome ε κ Unit) =
        (src.release, .ok () w1) ∧
      (dst.dtor w2 : unique_resource R D × Outcome ε κ Unit) =
        (dst.release,
          if src.execute_on_destruction then
            noexcept_ true (Deleter.call src.get_deleter src.get w2)
          else .ok () w2) := by
  refine ⟨src, ?_, rfl, rfl, rfl, unique_dtor_of_not_owns _ w1 rfl, ?_⟩
  · unfold unique_resource.move_ctor
    simp only [box_ctor_of_init_ok _ _ _ _ hr, guard_ctor_lambda,
      box_ctor_of_init_ok _ _ _ _ hd]
    have hrel : ∀ g : scope_exit (Lambda ε κ),
        (basic_scope_exit.dtor (Releasable.release g) w : Outcome ε κ Unit) = .ok () w :=
      fun g => guard_dtor_of_not_should_execute _ w rfl
    have hafter : ∀ g : scope_exit (Lambda ε κ),
        src.after_move_guard (Releasable.release g : scope_exit (Lambda ε κ)) w = src := by
      intro g
      rfl
    simp [hrel, hafter, Outcome.bind, unique_resource.release]
  · cases h : src.execute_on_destruction
    · rw [unique_dtor_of_not_owns _ w2 h]
      cases src
      simp_all [unique_resource.release]
    · rw [unique_dtor_of_owns _ w2 h]
      simp

/-- Witness of C10: the object that holds 1 and owns is moved from. -/
theorem move_ctor_transfers_ownership_witness :
    ((_box.init (.rvalue (⟨1⟩ : _box Int).move) : Except String (_box Int)) = .ok ⟨1⟩ ∧
      (_box.init (.rvalue (⟨logging_deleter.mk⟩ : _box logging_deleter).move) :
        Except String (_box logging_deleter)) = .ok ⟨logging_deleter.mk⟩) ∧
    ∃ dst : unique_resource Int logging_deleter,
      (unique_resource.move_ctor
        { resource := ⟨(1 : Int)⟩, deleter := ⟨logging_deleter.mk⟩,
          execute_on_destruction := true }
        { uncaught_exceptions := 0, out := [] } :
        unique_resource Int logging_deleter ×
          Outcome String Int (unique_resource Int logging_deleter)) =
        ({ resource := ⟨1⟩, deleter := ⟨logging_deleter.mk⟩, execute_on_destruction := false },
          .ok dst { uncaught_exceptions := 0, out := [] }) ∧
      dst.get = 1 ∧ dst.execute_on_destruction = true ∧
      (dst.dtor { uncaught_exceptions := 0, out := [] } :
        unique_resource Int logging_deleter × Outcome String Int Unit) =
        (dst.release, .ok () { uncaught_exceptions := 0, out := [1] }) := by
  refine ⟨⟨rfl, rfl⟩, ?_⟩
  obtain ⟨dst, h1, h2, _, h4, _, h6⟩ :=
    @move_ctor_transfers_ownership String Int Int logging_deleter _ _ _
      { resource := ⟨1⟩, deleter := ⟨logging_deleter.mk⟩, execute_on_destruction := true }
      { uncaught_exceptions := 0, out := [] } { uncaught_exceptions := 0, out := [] }
      { uncaught_exceptions := 0, out := [] } (by rfl) (by rfl)
  exact ⟨dst, h1, h2, h4, h6⟩

end unique_claims

/-! ## Claims on the exit policies -/

/-- C13: an `on_fail_policy` built while the count of uncaught exceptions is `c`
captures `c`, and as long as it is not released its `should_execute()` is true
at count `n` iff `c < n`. -/
theorem on_fail_should_execute_iff (c n : Int) :
    (ExitPolicy.init c : on_fail_policy) = { ec_ := c } ∧
    (on_fail_policy.should_execute { ec_ := c } n = true ↔ c < n) := by
  constructor
  · rfl
  · simp [on_fail_policy.should_execute]

/-- C14: an `on_success_policy` built while the count of uncaught exceptions is
`c` captures `c`, and as long as it is not released its `should_execute()` is
true at count `n` iff `n ≤ c`. -/
theorem on_success_should_execute_iff (c n : Int) :
    (ExitPolicy.init c : on_success_policy) = { ec_ := c } ∧
    (on_success_policy.should_execute { ec_ := c } n = true ↔ n ≤ c) := by
  constructor
  · rfl
  · simp [on_success_policy.should_execute]

/-- C15: whatever the state of a policy, after `release()` its
`should_execute()` is false at every count `n` with `0 ≤ n ≤ INT_MAX`, also
after further calls of `release()`; `on_fail_policy::release` stores `INT_MAX`
and `on_success_policy::release` stores `-1`. -/
theorem release_is_final (n : Int) (hlo : 0 ≤ n) (hhi : n ≤ INT_MAX) :
    (∀ p : on_exit_policy,
      p.release.should_execute = false ∧ p.release.release.should_execute = false) ∧
    (∀ p : on_fail_policy,
      p.release.ec_ = INT_MAX ∧ p.release.should_execute n = false ∧
      p.release.release.should_execute n = false) ∧
    (∀ p : on_success_policy,
      p.release.ec_ = -1 ∧ p.release.should_execute n = false ∧
      p.release.release.should_execute n = false) := by
  refine ⟨fun p => ⟨rfl, rfl⟩, fun p => ⟨rfl, ?_, ?_⟩, fun p => ⟨rfl, ?_, ?_⟩⟩
  · exact on_fail_release_final p n hlo hhi
  · exact on_fail_release_final p.release n hlo hhi
  · exact on_success_release_final p n hlo hhi
  · exact on_success_release_final p.release n hlo hhi

/-- Witness of C15: released policies asked at the counts 0 and `INT_MAX`. -/
theorem release_is_final_witness :
    ((0 : Int) ≤ INT_MAX ∧ INT_MAX ≤ INT_MAX) ∧
    (∀ p : on_fail_policy,
      p.release.ec_ = INT_MAX ∧ p.release.should_execute INT_MAX = false ∧
      p.release.release.should_execute INT_MAX = false) ∧
    (∀ p : on_success_policy,
      p.release.ec_ = -1 ∧ p.release.should_execute 0 = false ∧
      p.release.release.should_execute 0 = false) :=
  ⟨⟨by decide, by decide⟩,
    (release_is_final INT_MAX (by decide) (by decide)).2.1,
    (release_is_final 0 (by decide) (by decide)).2.2⟩

/-- C16: for each of the three policies and every state, `release()` twice
leaves the state that `release()` once leaves. -/
theorem release_idempotent :
    (∀ p : on_exit_policy, p.release.release = p.release) ∧
    (∀ p : on_fail_policy, p.release.release = p.release) ∧
    (∀ p : on_success_policy, p.release.release = p.release) :=
  ⟨fun _ => rfl, fun _ => rfl, fun _ => rfl⟩

/-! ## Claims on moving guards -/

section guard_move
variable {ε κ F P : Type}

/-- Move construction of a guard whose callback is transferred without
throwing: the new guard has the policy of the source, the source is released,
and nothing is invoked. -/
theorem guard_move_ctor_of_init_ok [Constructible ε F] [ExitPolicy P]
    (src : basic_scope_exit F P) (b : _box F) (w : World κ)
    (h : (_box.init (.rvalue src.exit_function.move) : Except ε (_box F)) = .ok b) :
    (src.move_ctor w : basic_scope_exit F P × Outcome ε κ (basic_scope_exit F P)) =
      (src.release, .ok { policy := src.policy, exit_function := b } w) := by
  unfold basic_scope_exit.move_ctor
  rw [box_ctor_of_init_ok _ _ _ _ h]
  rfl

/-- The destructor of a guard does nothing or performs exactly one call of the
stored callback. -/
theorem guard_dtor_at_most_once [Invocable ε κ F] [ExitPolicy P] (g : basic_scope_exit F P)
    (w : World κ) :
    (g.dtor w : Outcome ε κ Unit) = .ok () w ∨
    (g.dtor w : Outcome ε κ Unit) =
      noexcept_ (@Invocable.is_nothrow_invocable ε κ F _) (Invocable.call g.exit_function.get w) := by
  cases h : ExitPolicy.should_execute g.policy w.uncaught_exceptions
  · exact Or.inl (guard_dtor_of_not_should_execute g w h)
  · exact Or.inr (guard_dtor_of_should_execute g w h)

/-- C17: a guard of any of the three kinds, in any policy state `p`, is moved
from, its callback being transferred as `f1` without throwing. Nothing is
invoked; the new guard has the policy state `p` and the callback `f1`; the
source is left with `should_execute()` false at every count an `int` can hold,
so its destructor invokes nothing; the destructor of the new guard does nothing
or performs exactly one call `f1()`. -/
theorem guard_move_ctor_transfers_policy [Constructible ε F] [Invocable ε κ F]
    (b : _box F) (f1 : F) (pe : on_exit_policy) (pf : on_fail_policy) (ps : on_success_policy)
    (w w1 w2 : World κ)
    (hmove : (_box.init (.rvalue b.move) : Except ε (_box F)) = .ok ⟨f1⟩)
    (hlo : 0 ≤ w1.uncaught_exceptions) (hhi : w1.uncaught_exceptions ≤ INT_MAX) :
    (∃ (src1 : scope_exit F) (dst : scope_exit F),
      (basic_scope_exit.move_ctor { policy := pe, exit_function := b } w :
        scope_exit F × Outcome ε κ (scope_exit F)) = (src1, .ok dst w) ∧
      dst.policy = pe ∧ dst.exit_function.get = f1 ∧
      src1.policy.should_execute = false ∧
      (src1.dtor w1 : Outcome ε κ Unit) = .ok () w1 ∧
      ((dst.dtor w2 : Outcome ε κ Unit) = .ok () w2 ∨
        (dst.dtor w2 : Outcome ε κ Unit) =
          noexcept_ (@Invocable.is_nothrow_invocable ε κ F _) (Invocable.call f1 w2))) ∧
    (∃ (src1 : scope_fail F) (dst : scope_fail F),
      (basic_scope_exit.move_ctor { policy := pf, exit_function := b } w :
        scope_fail F × Outcome ε κ (scope_fail F)) = (src1, .ok dst w) ∧
      dst.policy = pf ∧ dst.exit_function.get = f1 ∧
      src1.policy.should_execute w1.uncaught_exceptions = false ∧
      (src1.dtor w1 : Outcome ε κ Unit) = .ok () w1 ∧
      ((dst.dtor w2 : Outcome ε κ Unit) = .ok () w2 ∨
        (dst.dtor w2 : Outcome ε κ Unit) =
          noexcept_ (@Invocable.is_nothrow_invocable ε κ F _) (Invocable.call f1 w2))) ∧
    (∃ (src1 : scope_success F) (dst : scope_success F),
      (basic_scope_exit.move_ctor { policy := ps, exit_function := b } w :
        scope_success F × Outcome ε κ (scope_success F)) = (src1, .ok dst w) ∧
      dst.policy = ps ∧ dst.exit_function.get = f1 ∧
      src1.policy.should_execute w1.uncaught_exceptions = false ∧
      (src1.dtor w1 : Outcome ε κ Unit) = .ok () w1 ∧
      ((dst.dtor w2 : Outcome ε κ Unit) = .ok () w2 ∨
        (dst.dtor w2 : Outcome ε κ Unit) =
          noexcept_ (@Invocable.is_nothrow_invocable ε κ F _) (Invocable.call f1 w2))) := by
  refine ⟨⟨_, _, guard_move_ctor_of_init_ok _ _ w hmove, rfl, rfl, rfl, ?_, ?_⟩,
    ⟨_, _, guard_move_ctor_of_init_ok _ _ w hmove, rfl, rfl, ?_, ?_, ?_⟩,
    ⟨_, _, guard_move_ctor_of_init_ok _ _ w hmove, rfl, rfl, ?_, ?_, ?_⟩⟩
  · exact guard_dtor_of_not_should_execute _ w1 rfl
  · exact guard_dtor_at_most_once _ w2
  · exact on_fail_release_final pf _ hlo hhi
  · exact guard_dtor_of_not_should_execute _ w1 (on_fail_release_final pf _ hlo hhi)
  · exact guard_dtor_at_most_once _ w2
  · exact on_success_release_final ps _ hlo hhi
  · exact guard_dtor_of_not_should_execute _ w1 (on_success_release_final ps _ hlo hhi)
  · exact guard_dtor_at_most_once _ w2

/-- Witness of C17: an armed `scope_fail` guard around the lambda that writes
"done" is moved from; the source is then destroyed while an exception is in
flight. -/
theorem guard_move_ctor_transfers_policy_witness :
    ((_box.init (.rvalue (⟨done⟩ : _box (Callback String String)).move) :
        Except String (_box (Callback String String))) = .ok ⟨done⟩ ∧
      0 ≤ (thrown quiet).uncaught_exceptions ∧ (thrown quiet).uncaught_exceptions ≤ INT_MAX) ∧
    ∃ (src1 : scope_fail (Callback String String)) (dst : scope_fail (Callback String String)),
      (basic_scope_exit.move_ctor { policy := { ec_ := 0 }, exit_function := ⟨done⟩ } quiet :
        scope_fail (Callback String String) ×
          Outcome String String (scope_fail (Callback String String))) = (src1, .ok dst quiet) ∧
      dst.policy = { ec_ := 0 } ∧ dst.exit_function.get = done ∧
      src1.policy.should_execute (thrown quiet).uncaught_exceptions = false ∧
      (src1.dtor (thrown quiet) : Outcome String String Unit) = .ok () (thrown quiet) := by
  refine ⟨⟨rfl, by decide, by decide⟩, ?_⟩
  obtain ⟨src1, dst, h1, h2, h3, h4, h5, _⟩ :=
    (@guard_move_ctor_transfers_policy String String (Callback String String) _ _
      ⟨done⟩ done {} { ec_ := 0 } { ec_ := 0 } quiet (thrown quiet) (thrown quiet)
      (by rfl) (by decide) (by decide)).2.1
  exact ⟨src1, dst, h1, h2, h3, h4, h5⟩

end guard_move

/-! ## Claims on move assignment -/

section move_assignment
variable {ε κ R D : Type}

/-- What `reset()` does, given the world `w1` reached after the deleter call
it makes when the object owns (and `w1 = w` when it does not). -/
theorem unique_reset_of_call_ok [Deleter ε κ D R] (u : unique_resource R D) (w w1 : World κ)
    (hdel : (if u.execute_on_destruction then
        (Deleter.call u.get_deleter u.get w : Outcome ε κ Unit) else .ok () w) = .ok () w1) :
    (u.reset w : unique_resource R D × Outcome ε κ Unit) = (u.release, .ok () w1) := by
  cases h : u.execute_on_destruction
  · rw [h] at hdel
    simp only [Bool.false_eq_true, if_false, Outcome.ok.injEq, true_and] at hdel
    cases u
    simp_all [unique_resource.reset, unique_resource.release]
  · rw [h] at hdel
    simp only [if_true] at hdel
    have hdel2 : (Deleter.call u.deleter.get u.resource.get w : Outcome ε κ Unit) =
        .ok () w1 := hdel
    simp [unique_resource.reset, h, unique_resource.get, unique_resource.get_deleter, hdel2,
      unique_resource.release]

/-- C11: move assignment `dst = std::move(src)` between distinct objects, when
every assignment of the value of `src` stores it without throwing and the
deleter call of `dst`, if any, returns. The world `w1` after the assignment is
the world after exactly one call of the deleter of `dst` on the resource `dst`
held when `dst` owned, and the initial world when it did not. Afterwards `dst`
has the resource, the deleter and the ownership flag `src` had, and `src` does
not own. -/
theorem move_assign_releases_then_adopts [Assignable ε R] [Assignable ε D] [Deleter ε κ D R]
    (dst src : unique_resource R D) (w w1 : World κ)
    (hdel : (if dst.execute_on_destruction then
        (Deleter.call dst.get_deleter dst.get w : Outcome ε κ Unit) else .ok () w) = .ok () w1)
    (hrm : (Assignable.move_assign dst.get src.get : Except ε R) = .ok src.get)
    (hrc : (Assignable.copy_assign dst.get src.get : Except ε R) = .ok src.get)
    (hdm : (Assignable.move_assign dst.get_deleter src.get_deleter : Except ε D) =
      .ok src.get_deleter)
    (hdc : (Assignable.copy_assign dst.get_deleter src.get_deleter : Except ε D) =
      .ok src.get_deleter) :
    ∃ dst1 src1 : unique_resource R D,
      (dst.move_assign src w :
        (unique_resource R D × unique_resource R D) × Outcome ε κ Unit) =
        ((dst1, src1), .ok () w1) ∧
      dst1.get = src.get ∧ dst1.get_deleter = src.get_deleter ∧
      dst1.execute_on_destruction = src.execute_on_destruction ∧
      src1.execute_on_destruction = false ∧ src1.get = src.get := by
  refine ⟨src, src.release, ?_, rfl, rfl, rfl, rfl, rfl⟩
  have hrm2 : (Assignable.move_assign dst.resource.value src.resource.value : Except ε R) =
      .ok src.resource.value := hrm
  have hrc2 : (Assignable.copy_assign dst.resource.value src.resource.value : Except ε R) =
      .ok src.resource.value := hrc
  have hdm2 : (Assignable.move_assign dst.deleter.value src.deleter.value : Except ε D) =
      .ok src.deleter.value := hdm
  have hdc2 : (Assignable.copy_assign dst.deleter.value src.deleter.value : Except ε D) =
      .ok src.deleter.value := hdc
  unfold unique_resource.move_assign
  rw [unique_reset_of_call_ok dst w w1 hdel]
  cases hR : @Assignable.is_nothrow_move_assignable ε R _ <;>
    cases hD : @Assignable.is_nothrow_move_assignable ε D _ <;>
    simp [unique_resource.assign_both, unique_resource.assign_resource,
      unique_resource.assign_deleter, _box.move_assign, _box.copy_assign, _as_const, of_except,
      Outcome.bind, Except.map, unique_resource.release, hrm2, hrc2, hdm2, hdc2]

/-- Witness of C11: the object holding 1 is assigned from the object holding 2,
both owning (deleter `writing_functor`). -/
theorem move_assign_releases_then_adopts_witness :
    ((Deleter.call writing_functor.mk (1 : Int) { uncaught_exceptions := 0, out := [] } :
        Outcome String Int Unit) = .ok () { uncaught_exceptions := 0, out := [1] } ∧
      (Assignable.move_assign (1 : Int) 2 : Except String Int) = .ok 2 ∧
      (Assignable.move_assign writing_functor.mk writing_functor.mk :
        Except String writing_functor) = .ok writing_functor.mk) ∧
    ∃ dst1 src1 : unique_resource Int writing_functor,
      (unique_resource.move_assign
        { resource := ⟨1⟩, deleter := ⟨writing_functor.mk⟩, execute_on_destruction := true }
        { resource := ⟨2⟩, deleter := ⟨writing_functor.mk⟩, execute_on_destruction := true }
        { uncaught_exceptions := 0, out := [] } :
        (unique_resource Int writing_functor × unique_resource Int writing_functor) ×
          Outcome String Int Unit) =
        ((dst1, src1), .ok () { uncaught_exceptions := 0, out := [1] }) ∧
      dst1.get = 2 ∧ dst1.execute_on_destruction = true ∧
      src1.execute_on_destruction = false := by
  refine ⟨⟨rfl, rfl, rfl⟩, ?_⟩
  obtain ⟨dst1, src1, h1, h2, _, h4, h5, _⟩ :=
    @move_assign_releases_then_adopts String Int Int writing_functor _ _ _
      { resource := ⟨1⟩, deleter := ⟨writing_functor.mk⟩, execute_on_destruction := true }
      { resource := ⟨2⟩, deleter := ⟨writing_functor.mk⟩, execute_on_destruction := true }
      { uncaught_exceptions := 0, out := [] } { uncaught_exceptions := 0, out := [1] }
      (by rfl) (by rfl) (by rfl) (by rfl) (by rfl)
  exact ⟨dst1, src1, h1, h2, h4, h5⟩

end move_assignment

/-! ## Claims on construction failures of `unique_resource` -/

section construction_failures
variable {ε κ T R D S : Type}

/-- A member whose value cannot be stored, the box constructor not being
declared `noexcept`: the temporary guard runs the fallback once while the
exception is in flight, and the exception leaves the initialiser. -/
theorem ctor_with_fallback_of_init_error [Constructible ε T] (t : Arg T) (e : ε)
    (fallback : Lambda ε κ) (w w1 : World κ)
    (h : (_box.init t : Except ε (_box T)) = .error e)
    (hn : _box.noexcept_ctor ε T = false)
    (hcall : fallback.body (thrown w) = .ok () w1) :
    (_box.ctor_with_fallback t fallback w : Outcome ε κ (_box T)) = .raise e w1 := by
  unfold _box.ctor_with_fallback
  rw [guard_ctor_lambda]
  simp only [Outcome.bind, box_ctor_of_init_error _ _ _ _ h hn]
  have hd : (basic_scope_exit.dtor
      ({ policy := ExitPolicy.init w.uncaught_exceptions, exit_function := ⟨fallback⟩ } :
        scope_exit (Lambda ε κ)) (thrown w) : Outcome ε κ Unit) = .ok () w1 := by
    rw [guard_dtor_of_should_execute _ _ rfl]
    simp [Invocable.call, _box.get, hcall]
  simp [unwind, hd]

/-- Deleter that cannot be stored, the box constructor of its type not being
declared `noexcept`: the resource is stored as `r1`, then storing the deleter
throws `e`. With `w1` the world after one call of the caller's deleter on `r1`
made while `e` is in flight, the two-argument constructor exits with `e` in
`w1`. The checked
factory, when `r == invalid` evaluates to `equal`, exits with `e` in `w1` when
`equal` is false and exits with `e` without any call when `equal` is true. So
`make_unique_resource_checked(42, 0, d)` writes "called 42" and throws, and
`make_unique_resource_checked(0, 0, d)` throws and writes nothing. -/
theorem deleter_copy_failure_cleans_resource [Constructible ε R] [Constructible ε D]
    [Deleter ε κ D R] [EqualityComparable ε R S] (ra : Arg R) (da : Arg D) (r1 : R) (e : ε)
    (invalid : S) (equal : Bool) (w w1 : World κ)
    (hr : (_box.init ra : Except ε (_box R)) = .ok ⟨r1⟩)
    (hd : (_box.init da : Except ε (_box D)) = .error e)
    (hn : _box.noexcept_ctor ε D = false)
    (hnf : da.is_nothrow_constructible ε = false)
    (heq : (EqualityComparable.eq ra.get invalid : Except ε Bool) = .ok equal)
    (hcall : (Deleter.call da.get r1 (thrown w) : Outcome ε κ Unit) = .ok () w1) :
    (unique_resource.ctor ra da w : Outcome ε κ (unique_resource R D)) = .raise e w1 ∧
    (make_unique_resource_checked ra invalid da w : Outcome ε κ (unique_resource R D)) =
      .raise e (if equal then thrown w else w1) ∧
    (make_unique_resource_checked (.rvalue (42 : Int)) (0 : Int)
      (.rvalue ({ sz_ := "called " } : throwing_copy)) quiet :
      Outcome String String (unique_resource Int throwing_copy)) =
      .raise "throwing_copy copy attempt:"
        { uncaught_exceptions := 1, out := ["called 42"] } ∧
    (make_unique_resource_checked (.rvalue (0 : Int)) (0 : Int)
      (.rvalue ({ sz_ := "notcalled" } : throwing_copy)) quiet :
      Outcome String String (unique_resource Int throwing_copy)) =
      .raise "throwing_copy copy attempt:" { uncaught_exceptions := 1, out := [] } := by
  refine ⟨?_, ?_, ?_, ?_⟩
  · unfold unique_resource.ctor
    rw [ctor_with_fallback_of_init_ok ra ⟨r1⟩ _ w hr]
    simp only [Outcome.bind]
    rw [ctor_with_fallback_of_init_error da e _ w w1 hd hn hcall]
    simp [hn]
  · unfold make_unique_resource_checked factory_holder.special_maker unique_resource.ctor3
    simp only [heq, of_except, Outcome.bind, hnf, Bool.and_false, noexcept_false]
    rw [ctor_with_fallback_of_init_ok ra ⟨r1⟩ _ w hr]
    simp only [Outcome.bind]
    cases equal
    · rw [ctor_with_fallback_of_init_error da e _ w w1 hd hn (by simpa using hcall)]
      simp [hn]
    · rw [ctor_with_fallback_of_init_error da e _ w (thrown w) hd hn (by simp)]
      simp [hn]
  · decide
  · decide

/-- The lemma above at `unique_resource(42, d)` with a `throwing_copy` deleter `d`. -/
theorem deleter_copy_failure_cleans_resource_witness :
    ((_box.init (.rvalue (42 : Int)) : Except String (_box Int)) = .ok ⟨42⟩ ∧
      (_box.init (.rvalue ({ sz_ := "called " } : throwing_copy)) :
        Except String (_box throwing_copy)) = .error "throwing_copy copy attempt:" ∧
      _box.noexcept_ctor String throwing_copy = false ∧
      (Deleter.call ({ sz_ := "called " } : throwing_copy) (42 : Int) (thrown quiet) :
        Outcome String String Unit) =
        .ok () { uncaught_exceptions := 1, out := ["called 42"] }) ∧
    (unique_resource.ctor (.rvalue (42 : Int)) (.rvalue ({ sz_ := "called " } : throwing_copy))
      quiet : Outcome String String (unique_resource Int throwing_copy)) =
      .raise "throwing_copy copy attempt:"
        { uncaught_exceptions := 1, out := ["called 42"] } :=
  ⟨⟨rfl, rfl, rfl, by decide⟩,
    (@deleter_copy_failure_cleans_resource String String Int throwing_copy Int _ _ _ _
      (.rvalue 42) (.rvalue { sz_ := "called " }) 42 "throwing_copy copy attempt:"
      0 false quiet { uncaught_exceptions := 1, out := ["called 42"] }
      (by rfl) (by rfl) (by rfl) (by rfl) (by rfl) (by decide)).1⟩

/-- Resource that cannot be stored, the box constructor of its type not being
declared `noexcept`: storing the resource throws `e`. With `w1` the world after
one call of the caller's deleter on the caller's resource made while `e` is in
flight, the two-argument constructor exits with the same `e` in `w1`. The
checked factory, when `r == invalid` evaluates to `equal`, exits with `e` in
`w1` when `equal` is false, and exits with `e` without any call when `equal` is
true. -/
theorem resource_copy_failure_cleans_original [Constructible ε R] [Constructible ε D]
    [Deleter ε κ D R] [EqualityComparable ε R S] (ra : Arg R) (da : Arg D) (e : ε)
    (invalid : S) (equal : Bool) (w w1 : World κ)
    (hr : (_box.init ra : Except ε (_box R)) = .error e)
    (hn : _box.noexcept_ctor ε R = false)
    (hnf : ra.is_nothrow_constructible ε = false)
    (heq : (EqualityComparable.eq ra.get invalid : Except ε Bool) = .ok equal)
    (hcall : (Deleter.call da.get ra.get (thrown w) : Outcome ε κ Unit) = .ok () w1) :
    (unique_resource.ctor ra da w : Outcome ε κ (unique_resource R D)) = .raise e w1 ∧
    (make_unique_resource_checked ra invalid da w : Outcome ε κ (unique_resource R D)) =
      .raise e (if equal then thrown w else w1) := by
  constructor
  · unfold unique_resource.ctor
    rw [ctor_with_fallback_of_init_error ra e _ w w1 hr hn hcall]
    simp [hn, Outcome.bind]
  · unfold make_unique_resource_checked factory_holder.special_maker unique_resource.ctor3
    simp only [heq, of_except, Outcome.bind, hnf, Bool.false_and, noexcept_false]
    cases equal
    · rw [ctor_with_fallback_of_init_error ra e _ w w1 hr hn (by simpa using hcall)]
      simp [hn]
    · rw [ctor_with_fallback_of_init_error ra e _ w (thrown w) hr hn (by simp)]
      simp [hn]

/-- The lemma above at the `throwing_copy` resource "x by value" given to the
checked factory with the sentinel 1 (test.cpp, lines 443-447). -/
theorem resource_copy_failure_cleans_original_witness :
    ((_box.init (.lvalue ({ sz_ := "x by value" } : throwing_copy)) :
        Except String (_box throwing_copy)) =
        .error "throwing_copy copy attempt:" ∧
      _box.noexcept_ctor String throwing_copy = false ∧
      (EqualityComparable.eq ({ sz_ := "x by value" } : throwing_copy) (1 : Int) :
        Except String Bool) = .ok false ∧
      (Deleter.call ({ suffix := " called" } : suffix_deleter)
        ({ sz_ := "x by value" } : throwing_copy) (thrown quiet) :
        Outcome String String Unit) =
        .ok () { uncaught_exceptions := 1, out := ["x by value called"] }) ∧
    ((unique_resource.ctor (.lvalue ({ sz_ := "x by value" } : throwing_copy))
        (.rvalue ({ suffix := " called" } : suffix_deleter)) quiet :
        Outcome String String (unique_resource throwing_copy suffix_deleter)) =
        .raise "throwing_copy copy attempt:"
          { uncaught_exceptions := 1, out := ["x by value called"] } ∧
      (make_unique_resource_checked (.lvalue ({ sz_ := "x by value" } : throwing_copy))
        (1 : Int) (.rvalue ({ suffix := " called" } : suffix_deleter)) quiet :
        Outcome String String (unique_resource throwing_copy suffix_deleter)) =
        .raise "throwing_copy copy attempt:"
          (if false then thrown quiet
            else { uncaught_exceptions := 1, out := ["x by value called"] })) :=
  ⟨⟨rfl, rfl, rfl, by decide⟩,
    @resource_copy_failure_cleans_original String String throwing_copy suffix_deleter Int
      _ _ _ _ (.lvalue { sz_ := "x by value" }) (.rvalue { suffix := " called" })
      "throwing_copy copy attempt:" 1 false quiet
      { uncaught_exceptions := 1, out := ["x by value called"] }
      (by rfl) (by rfl) (by rfl) (by rfl) (by decide)⟩

/-- C18, at a deleter passed as an lvalue whose type has a move constructor
declared `noexcept` and a copy constructor that throws: the exception
specification of the box constructor (scope.hpp, line 62) is computed from
`(T &&) t`, so it is `noexcept(true)`, while the constructor copies the lvalue.
`unique_resource(42, d)` and `make_unique_resource_checked(42, 0, d)` then end
in `std::terminate` with nothing written: the deleter was not invoked on the
boxed resource 42 and no exception left the constructor. With the
`throwing_copy` deleter of the test (test.cpp, lines 451-456), whose type has
no `noexcept` move constructor, the same calls write "called 42" and throw. -/
theorem deleter_lvalue_copy_failure_terminates :
    (unique_resource.ctor (.rvalue (42 : Int))
      (.lvalue ({ sz_ := "called " } : noexcept_move_throwing_copy)) quiet :
      Outcome String String (unique_resource Int noexcept_move_throwing_copy)) =
      .terminate { uncaught_exceptions := 1, out := [] } ∧
    (make_unique_resource_checked (.rvalue (42 : Int)) (0 : Int)
      (.lvalue ({ sz_ := "called " } : noexcept_move_throwing_copy)) quiet :
      Outcome String String (unique_resource Int noexcept_move_throwing_copy)) =
      .terminate { uncaught_exceptions := 1, out := [] } ∧
    (unique_resource.ctor (.rvalue (42 : Int))
      (.lvalue ({ sz_ := "called " } : throwing_copy)) quiet :
      Outcome String String (unique_resource Int throwing_copy)) =
      .raise "throwing_copy copy attempt:" { uncaught_exceptions := 1, out := ["called 42"] } ∧
    (make_unique_resource_checked (.rvalue (42 : Int)) (0 : Int)
      (.rvalue ({ sz_ := "called " } : throwing_copy)) quiet :
      Outcome String String (unique_resource Int throwing_copy)) =
      .raise "throwing_copy copy attempt:" { uncaught_exceptions := 1, out := ["called 42"] } := by
  refine ⟨?_, ?_, ?_, ?_⟩ <;> decide

/-- C19, at a resource passed as an lvalue whose type has a move constructor
declared `noexcept` and a copy constructor that throws: the box constructor is
`noexcept(true)` (scope.hpp, line 62) while it copies the lvalue.
`unique_resource(x, d)` and `make_unique_resource_checked(x, 1, d)` then end in
`std::terminate` with nothing written: the deleter was not invoked on `x` and
no exception reached the caller. With the `throwing_copy` resource of the test
(test.cpp, lines 443-447), whose type has no `noexcept` move constructor, the
same calls write "x by value called" and throw. -/
theorem resource_lvalue_copy_failure_terminates :
    (unique_resource.ctor (.lvalue ({ sz_ := "x by value" } : noexcept_move_throwing_copy))
      (.rvalue ({ suffix := " called" } : suffix_deleter)) quiet :
      Outcome String String (unique_resource noexcept_move_throwing_copy suffix_deleter)) =
      .terminate { uncaught_exceptions := 1, out := [] } ∧
    (make_unique_resource_checked
      (.lvalue ({ sz_ := "x by value" } : noexcept_move_throwing_copy)) (1 : Int)
      (.rvalue ({ suffix := " called" } : suffix_deleter)) quiet :
      Outcome String String (unique_resource noexcept_move_throwing_copy suffix_deleter)) =
      .terminate { uncaught_exceptions := 1, out := [] } ∧
    (unique_resource.ctor (.lvalue ({ sz_ := "x by value" } : throwing_copy))
      (.rvalue ({ suffix := " called" } : suffix_deleter)) quiet :
      Outcome String String (unique_resource throwing_copy suffix_deleter)) =
      .raise "throwing_copy copy attempt:"
        { uncaught_exceptions := 1, out := ["x by value called"] } ∧
    (make_unique_resource_checked (.lvalue ({ sz_ := "x by value" } : throwing_copy)) (1 : Int)
      (.rvalue ({ suffix := " called" } : suffix_deleter)) quiet :
      Outcome String String (unique_resource throwing_copy suffix_deleter)) =
      .raise "throwing_copy copy attempt:"
        { uncaught_exceptions := 1, out := ["x by value called"] } := by
  refine ⟨?_, ?_, ?_, ?_⟩ <;> decide

/-- C20: move construction from `src` when the resource is transferred as `r1`
and transferring the deleter throws `e` (the box constructor of the deleter
type not being declared `noexcept`). With `w1` the world after one call of the
deleter of `src` on `r1` made while `e` is in flight when `src` owned, and the
world with `e` in flight and no call when it did not: the move constructor
exits with `e` in `w1` and leaves `src` not owning, so destroying `src`
afterwards invokes nothing. -/
theorem move_ctor_deleter_copy_failure [Constructible ε R] [Constructible ε D]
    [Deleter ε κ D R] (src : unique_resource R D) (r1 : R) (e : ε) (w w1 w2 : World κ)
    (hr : (_box.init (.rvalue src.resource.move) : Except ε (_box R)) = .ok ⟨r1⟩)
    (hd : (_box.init (.rvalue src.deleter.move) : Except ε (_box D)) = .error e)
    (hn : _box.noexcept_ctor ε D = false)
    (hcall : (if src.execute_on_destruction then
        (Deleter.call src.get_deleter r1 (thrown w) : Outcome ε κ Unit)
        else .ok () (thrown w)) = .ok () w1) :
    (src.move_ctor w : unique_resource R D × Outcome ε κ (unique_resource R D)) =
      (src.release, .raise e w1) ∧
    (src.release.dtor w2 : unique_resource R D × Outcome ε κ Unit) =
      (src.release, .ok () w2) := by
  refine ⟨?_, unique_dtor_of_not_owns _ w2 rfl⟩
  unfold unique_resource.move_ctor
  simp only [box_ctor_of_init_ok _ _ _ _ hr, guard_ctor_lambda,
    box_ctor_of_init_error _ _ _ _ hd hn]
  have hd2 : ∀ fb : Lambda ε κ, fb.body (thrown w) = .ok () w1 →
      (basic_scope_exit.dtor
        ({ policy := ExitPolicy.init w.uncaught_exceptions, exit_function := ⟨fb⟩ } :
          scope_exit (Lambda ε κ)) (thrown w) : Outcome ε κ Unit) = .ok () w1 := by
    intro fb hfb
    rw [guard_dtor_of_should_execute _ _ rfl]
    simp [Invocable.call, _box.get, hfb]
  have hbody : (basic_scope_exit.dtor
      ({ policy := { execute_ := true },
         exit_function := ⟨⟨fun w0 =>
           if src.execute_on_destruction then
             Deleter.call src.get_deleter (_box.mk r1).get w0
           else .ok () w0⟩⟩ } : scope_exit (Lambda ε κ)) (thrown w) : Outcome ε κ Unit) =
      .ok () w1 :=
    hd2 ⟨fun w0 =>
      if src.execute_on_destruction then Deleter.call src.get_deleter (_box.mk r1).get w0
      else .ok () w0⟩ hcall
  simp [unique_resource.after_move_guard, hbody, unwind, hn, ExitPolicy.init,
    on_exit_policy.should_execute]

/-- Witness of C20: an owning object that holds 42 with a `throwing_copy` deleter
is moved from. -/
theorem move_ctor_deleter_copy_failure_witness :
    ((_box.init (.rvalue (⟨42⟩ : _box Int).move) : Except String (_box Int)) = .ok ⟨42⟩ ∧
      (_box.init (.rvalue (⟨{ sz_ := "called " }⟩ : _box throwing_copy).move) :
        Except String (_box throwing_copy)) = .error "throwing_copy copy attempt:" ∧
      _box.noexcept_ctor String throwing_copy = false ∧
      (Deleter.call ({ sz_ := "called " } : throwing_copy) (42 : Int) (thrown quiet) :
        Outcome String String Unit) =
        .ok () { uncaught_exceptions := 1, out := ["called 42"] }) ∧
    (unique_resource.move_ctor
      { resource := ⟨(42 : Int)⟩, deleter := ⟨({ sz_ := "called " } : throwing_copy)⟩,
        execute_on_destruction := true } quiet :
      unique_resource Int throwing_copy ×
        Outcome String String (unique_resource Int throwing_copy)) =
      ({ resource := ⟨42⟩, deleter := ⟨{ sz_ := "called " }⟩, execute_on_destruction := false },
        .raise "throwing_copy copy attempt:"
          { uncaught_exceptions := 1, out := ["called 42"] }) :=
  ⟨⟨rfl, rfl, rfl, by decide⟩,
    (@move_ctor_deleter_copy_failure String String Int throwing_copy _ _ _
      { resource := ⟨42⟩, deleter := ⟨{ sz_ := "called " }⟩, execute_on_destruction := true }
      42 "throwing_copy copy attempt:" quiet
      { uncaught_exceptions := 1, out := ["called 42"] } quiet
      (by rfl) (by rfl) (by rfl) (by decide)).1⟩

end construction_failures

/-! ## Claims on runs of operations -/

section run_claims
variable {ε R D : Type}

theorem armed_after_append (cur : Option R) (a b : List (Event R)) :
    armed_after cur (a ++ b) = armed_after (armed_after cur a) b := by
  induction a generalizing cur with
  | nil => rfl
  | cons x t ih => cases x <;> simp [armed_after, ih]

theorem consistent_append [DecidableEq R] (cur : Option R) (a b : List (Event R)) :
    consistent cur (a ++ b) = (consistent cur a && consistent (armed_after cur a) b) := by
  induction a generalizing cur with
  | nil => simp [consistent, armed_after]
  | cons x t ih => cases x <;> simp [consistent, armed_after, ih, Bool.and_assoc]

/-- What `reset(r)` does when the assignment stores `b`, given the world `w1`
reached after the deleter call made when the object owns, the count of
uncaught exceptions being the same in `w1` as in `w`. -/
theorem reset_value_of_ok {κ : Type} [Assignable ε R] [Deleter ε κ D R]
    (u : unique_resource R D) (ba : Arg R) (b : _box R) (w w1 : World κ)
    (hassign : (_box.assign u.resource ba : Except ε (_box R)) = .ok b)
    (hdel : (if u.execute_on_destruction then
        (Deleter.call u.get_deleter u.get w : Outcome ε κ Unit) else .ok () w) = .ok () w1)
    (hcnt : w1.uncaught_exceptions = w.uncaught_exceptions) :
    (u.reset_value ba w : unique_resource R D × Outcome ε κ Unit) =
      ({ resource := b, deleter := u.deleter, execute_on_destruction := true }, .ok () w1) := by
  have hguard : (basic_scope_exit.dtor
      ({ policy := ExitPolicy.init w.uncaught_exceptions,
         exit_function := ⟨⟨fun w0 => Deleter.call u.get_deleter ba.get w0⟩⟩ } :
        scope_fail (Lambda ε κ)) w1 : Outcome ε κ Unit) = .ok () w1 := by
    apply guard_dtor_of_not_should_execute
    simp [ExitPolicy.should_execute, ExitPolicy.init, on_fail_policy.should_execute, hcnt]
  have hbox : (_box.reset u.release.resource ba w1 : Outcome ε κ (_box R)) = .ok b w1 := by
    have : (_box.assign u.release.resource ba : Except ε (_box R)) = .ok b := hassign
    simp [_box.reset, this, of_except]
  unfold unique_resource.reset_value
  simp only [guard_ctor_lambda, unique_reset_of_call_ok u w w1 hdel, hbox, leave_scope, hguard,
    Outcome.bind, noexcept_ok]
  rfl

/-- One member call of a run: it returns, leaves the count of uncaught
exceptions as it was, and records events that keep the invariant and lead to
the armed value of the object as left. -/
theorem apply_keeps_invariant [DecidableEq R] [Assignable ε R] [Deleter ε (Event R) D R]
    (hlog : ∀ (d : D) (r : R) (w : World (Event R)),
      (Deleter.call d r w : Outcome ε (Event R) Unit) =
        .ok () { w with out := w.out ++ [.deleted r] })
    (hassign : ∀ old v : R, (Assignable.copy_assign old v : Except ε R) = .ok v ∧
      (Assignable.move_assign old v : Except ε R) = .ok v)
    (u : unique_resource R D) (op : Op R) (w : World (Event R)) :
    ∃ (u1 : unique_resource R D) (w1 : World (Event R)) (evs : List (Event R)),
      (u.apply op w : unique_resource R D × Outcome ε (Event R) Unit) = (u1, .ok () w1) ∧
      w1.out = w.out ++ evs ∧ w1.uncaught_exceptions = w.uncaught_exceptions ∧
      u1.armed = armed_after u.armed evs ∧ consistent u.armed evs = true := by
  have hdel : ∀ v : unique_resource R D,
      (if v.execute_on_destruction then
        (Deleter.call v.get_deleter v.get w : Outcome ε (Event R) Unit) else .ok () w) =
      .ok () { w with out := w.out ++
        (if v.execute_on_destruction then [Event.deleted v.get] else []) } := by
    intro v
    cases h : v.execute_on_destruction <;> simp [hlog]
  cases op with
  | reset =>
    refine ⟨u.release,
      { w with out := w.out ++
        (if u.execute_on_destruction then [Event.deleted u.get] else []) },
      if u.execute_on_destruction then [Event.deleted u.get] else [],
      unique_reset_of_call_ok u w _ (hdel u), rfl, rfl, ?_, ?_⟩
    · cases h : u.execute_on_destruction <;>
        simp [unique_resource.armed, unique_resource.release, armed_after, h]
    · cases h : u.execute_on_destruction <;> simp [unique_resource.armed, consistent, h]
  | reset_value a =>
    have hb1 : (_box.assign u.resource a : Except ε (_box R)) = .ok ⟨a.get⟩ := by
      cases a <;> simp [_box.assign, hassign, Except.map, Arg.get]
    have hrv := reset_value_of_ok u a ⟨a.get⟩ w _ hb1 (hdel u) rfl
    refine ⟨{ resource := ⟨a.get⟩, deleter := u.deleter, execute_on_destruction := true },
      { w with out := (w.out ++
        (if u.execute_on_destruction then [Event.deleted u.get] else [])) ++
          [Event.armed a.get] },
      (if u.execute_on_destruction then [Event.deleted u.get] else []) ++ [Event.armed a.get],
      ?_, ?_, rfl, ?_, ?_⟩
    · simp only [unique_resource.apply, hrv]
    · simp [List.append_assoc]
    · cases h : u.execute_on_destruction <;>
        simp [unique_resource.armed, armed_after, h, unique_resource.get, _box.get]
    · cases h : u.execute_on_destruction <;> simp [unique_resource.armed, consistent, h]
  | release =>
    refine ⟨u.release, { w with out := w.out ++ [Event.released] }, [Event.released],
      rfl, rfl, rfl, ?_, ?_⟩
    · simp [unique_resource.armed, unique_resource.release, armed_after]
    · simp [consistent]

/-- A run of member calls returns and keeps the invariant. -/
theorem run_keeps_invariant [DecidableEq R] [Assignable ε R] [Deleter ε (Event R) D R]
    (hlog : ∀ (d : D) (r : R) (w : World (Event R)),
      (Deleter.call d r w : Outcome ε (Event R) Unit) =
        .ok () { w with out := w.out ++ [.deleted r] })
    (hassign : ∀ old v : R, (Assignable.copy_assign old v : Except ε R) = .ok v ∧
      (Assignable.move_assign old v : Except ε R) = .ok v)
    (ops : List (Op R)) (u : unique_resource R D) (w : World (Event R)) :
    ∃ (u1 : unique_resource R D) (w1 : World (Event R)) (evs : List (Event R)),
      (unique_resource.run ops u w : unique_resource R D × Outcome ε (Event R) Unit) =
        (u1, .ok () w1) ∧
      w1.out = w.out ++ evs ∧ w1.uncaught_exceptions = w.uncaught_exceptions ∧
      u1.armed = armed_after u.armed evs ∧ consistent u.armed evs = true := by
  induction ops generalizing u w with
  | nil => exact ⟨u, w, [], rfl, by simp, rfl, rfl, rfl⟩
  | cons op ops ih =>
    obtain ⟨u1, w1, evs1, h1, ho1, hc1, ha1, hk1⟩ := apply_keeps_invariant hlog hassign u op w
    obtain ⟨u2, w2, evs2, h2, ho2, hc2, ha2, hk2⟩ := ih u1 w1
    refine ⟨u2, w2, evs1 ++ evs2, ?_, ?_, ?_, ?_, ?_⟩
    · simp only [unique_resource.run, h1, h2]
    · rw [ho2, ho1, List.append_assoc]
    · rw [hc2, hc1]
    · rw [armed_after_append, ← ha1, ha2]
    · rw [consistent_append, hk1, ← ha1, hk2]
      rfl

/-- C12: a run of `reset()`, `reset(v)` and `release()` calls on an object,
followed by its destruction, with a deleter that returns after recording the
value it is called with, and assignments of the resource type that do not throw
and store the value assigned. The run and the destruction return. The record
`evs ++ evs2` of the whole run holds the deleter calls, the arguments `v` of the
`reset(v)` calls and the `release()` calls in the order they took place; it is
consistent from the initial armed value: every deleter call is on the `v` of
the most recent `reset(v)` (on the value the object was built with when there
was none), and no second deleter call follows before the next `reset(v)`. At
the end of the member calls (so after every prefix of a run) the object owns
iff no deleter call and no `release()` came after the most recent arming, and
it then holds the `v` of that arming. -/
theorem run_keeps_single_deletion [DecidableEq R] [Assignable ε R] [Deleter ε (Event R) D R]
    (hlog : ∀ (d : D) (r : R) (w : World (Event R)),
      (Deleter.call d r w : Outcome ε (Event R) Unit) =
        .ok () { w with out := w.out ++ [.deleted r] })
    (hassign : ∀ old v : R, (Assignable.copy_assign old v : Except ε R) = .ok v ∧
      (Assignable.move_assign old v : Except ε R) = .ok v)
    (ops : List (Op R)) (u : unique_resource R D) (w : World (Event R)) :
    ∃ (u1 : unique_resource R D) (w1 w2 : World (Event R)) (evs evs2 : List (Event R)),
      (unique_resource.run ops u w : unique_resource R D × Outcome ε (Event R) Unit) =
        (u1, .ok () w1) ∧
      w1.out = w.out ++ evs ∧
      u1.execute_on_destruction = (armed_after u.armed evs).isSome ∧
      (∀ v : R, armed_after u.armed evs = some v → u1.get = v) ∧
      (unique_resource.run_and_destroy ops u w :
        unique_resource R D × Outcome ε (Event R) Unit) = (u1.release, .ok () w2) ∧
      w2.out = w.out ++ (evs ++ evs2) ∧
      consistent u.armed (evs ++ evs2) = true ∧
      armed_after u.armed (evs ++ evs2) = none := by
  obtain ⟨u1, w1, evs, h1, ho1, _, ha1, hk1⟩ := run_keeps_invariant hlog hassign ops u w
  have hdel : (if u1.execute_on_destruction then
      (Deleter.call u1.get_deleter u1.get w1 : Outcome ε (Event R) Unit) else .ok () w1) =
      .ok () { w1 with out := w1.out ++
        (if u1.execute_on_destruction then [Event.deleted u1.get] else []) } := by
    cases h : u1.execute_on_destruction <;> simp [hlog]
  have hdtor : (u1.dtor w1 : unique_resource R D × Outcome ε (Event R) Unit) =
      (u1.release, .ok () { w1 with out := w1.out ++
        (if u1.execute_on_destruction then [Event.deleted u1.get] else []) }) := by
    simp [unique_resource.dtor, unique_reset_of_call_ok u1 w1 _ hdel]
  refine ⟨u1, w1,
    { w1 with out := w1.out ++
      (if u1.execute_on_destruction then [Event.deleted u1.get] else []) },
    evs, if u1.execute_on_destruction then [Event.deleted u1.get] else [],
    h1, ho1, ?_, ?_, ?_, ?_, ?_, ?_⟩
  · rw [← ha1]
    cases h : u1.execute_on_destruction <;> simp [unique_resource.armed, h]
  · intro v hv
    rw [← ha1] at hv
    cases h : u1.execute_on_destruction
    · simp [unique_resource.armed, h] at hv
    · simp only [unique_resource.armed, h, if_true, Option.some.injEq] at hv
      exact hv
  · simp only [unique_resource.run_and_destroy, h1, hdtor]
  · simp [ho1, List.append_assoc]
  · rw [consistent_append, hk1, ← ha1]
    cases h : u1.execute_on_destruction <;> simp [unique_resource.armed, consistent, h]
  · rw [armed_after_append, ← ha1]
    cases h : u1.execute_on_destruction <;> simp [unique_resource.armed, armed_after, h]

/-- Witness of C12: the object built with 1 undergoes `reset(2)`, `reset()`,
`reset()`, `release()`, `reset(3)` and is destroyed. -/
theorem run_keeps_single_deletion_witness :
    ((∀ (d : recording_deleter) (r : Int) (w : World (Event Int)),
        (Deleter.call d r w : Outcome String (Event Int) Unit) =
          .ok () { w with out := w.out ++ [.deleted r] }) ∧
      (∀ old v : Int, (Assignable.copy_assign old v : Except String Int) = .ok v ∧
        (Assignable.move_assign old v : Except String Int) = .ok v)) ∧
    ∃ (u1 : unique_resource Int recording_deleter) (w1 w2 : World (Event Int))
      (evs evs2 : List (Event Int)),
      (unique_resource.run
        [.reset_value (.rvalue 2), .reset, .reset, .release, .reset_value (.lvalue 3)]
        { resource := ⟨1⟩, deleter := ⟨recording_deleter.mk⟩, execute_on_destruction := true }
        { uncaught_exceptions := 0, out := [] } :
        unique_resource Int recording_deleter × Outcome String (Event Int) Unit) =
        (u1, .ok () w1) ∧
      w1.out = [] ++ evs ∧
      u1.execute_on_destruction = (armed_after (some 1) evs).isSome ∧
      (∀ v : Int, armed_after (some 1) evs = some v → u1.get = v) ∧
      (unique_resource.run_and_destroy
        [.reset_value (.rvalue 2), .reset, .reset, .release, .reset_value (.lvalue 3)]
        { resource := ⟨1⟩, deleter := ⟨recording_deleter.mk⟩, execute_on_destruction := true }
        { uncaught_exceptions := 0, out := [] } :
        unique_resource Int recording_deleter × Outcome String (Event Int) Unit) =
        (u1.release, .ok () w2) ∧
      w2.out = [] ++ (evs ++ evs2) ∧
      consistent (some 1) (evs ++ evs2) = true ∧
      armed_after (some 1) (evs ++ evs2) = none :=
  ⟨⟨fun _ _ _ => rfl, fun _ _ => ⟨rfl, rfl⟩⟩,
    @run_keeps_single_deletion String Int recording_deleter _ _ _
      (fun _ _ _ => rfl) (fun _ _ => ⟨rfl, rfl⟩)
      [.reset_value (.rvalue 2), .reset, .reset, .release, .reset_value (.lvalue 3)]
      { resource := ⟨1⟩, deleter := ⟨recording_deleter.mk⟩, execute_on_destruction := true }
      { uncaught_exceptions := 0, out := [] }⟩

end run_claims

/-! ## Claims on exceptions thrown by deleters, comparisons and callbacks -/

section thrown_by_callables
variable {ε κ F R D S : Type}

/-- C21, as stated, fails: `reset()` on the owning object whose deleter throws
"42" does not exit with that exception; `reset()` is declared `noexcept`, so
`std::terminate` is called. -/
theorem reset_throwing_deleter_counterexample :
    (unique_resource.reset
      ({ resource := ⟨2⟩, deleter := ⟨{ exn := "42" }⟩, execute_on_destruction := true } :
        unique_resource Int (throwing_deleter String)) quiet :
      unique_resource Int (throwing_deleter String) × Outcome String String Unit).2 =
      .terminate { uncaught_exceptions := 1, out := [] } ∧
    (unique_resource.reset
      ({ resource := ⟨2⟩, deleter := ⟨{ exn := "42" }⟩, execute_on_destruction := true } :
        unique_resource Int (throwing_deleter String)) quiet :
      unique_resource Int (throwing_deleter String) × Outcome String String Unit).2 ≠
      .raise "42" { uncaught_exceptions := 1, out := [] } := by
  constructor <;> decide

/-- C21, amended: when the deleter call made by `reset()` on an owning object
exits with an exception, in world `w1`, `reset()` does not let it out: it is
declared `noexcept` and `std::terminate` is called in `w1`, after exactly one
call of the deleter. The object had been made not owning before the call: as
left, it holds the same resource and does not own, and neither `reset()` nor
the destructor invokes anything on an object in that state. -/
theorem reset_throwing_deleter_terminates [Deleter ε κ D R] (u : unique_resource R D) (e : ε)
    (w w1 w2 : World κ)
    (hown : u.execute_on_destruction = true)
    (hdel : (Deleter.call u.get_deleter u.get w : Outcome ε κ Unit) = .raise e w1) :
    (u.reset w : unique_resource R D × Outcome ε κ Unit) = (u.release, .terminate w1) ∧
    u.release.execute_on_destruction = false ∧ u.release.get = u.get ∧
    (u.release.reset w2 : unique_resource R D × Outcome ε κ Unit) = (u.release, .ok () w2) ∧
    (u.release.dtor w2 : unique_resource R D × Outcome ε κ Unit) = (u.release, .ok () w2) := by
  have hdel2 : (Deleter.call u.deleter.get u.resource.get w : Outcome ε κ Unit) =
      .raise e w1 := hdel
  refine ⟨?_, rfl, rfl, ?_, unique_dtor_of_not_owns _ w2 rfl⟩
  · simp [unique_resource.reset, hown, unique_resource.get, unique_resource.get_deleter, hdel2,
      unique_resource.release]
  · simp [unique_resource.reset, unique_resource.release]

/-- Witness of C21, amended: the object holding 2 whose deleter throws "42". -/
theorem reset_throwing_deleter_terminates_witness :
    ((Deleter.call ({ exn := "42" } : throwing_deleter String) (2 : Int) quiet :
        Outcome String String Unit) = .raise "42" { uncaught_exceptions := 1, out := [] }) ∧
    (unique_resource.reset
      ({ resource := ⟨2⟩, deleter := ⟨{ exn := "42" }⟩, execute_on_destruction := true } :
        unique_resource Int (throwing_deleter String)) quiet :
      unique_resource Int (throwing_deleter String) × Outcome String String Unit) =
      ({ resource := ⟨2⟩, deleter := ⟨{ exn := "42" }⟩, execute_on_destruction := false },
        .terminate { uncaught_exceptions := 1, out := [] }) :=
  ⟨by decide,
    (@reset_throwing_deleter_terminates String String Int (throwing_deleter String) _
      { resource := ⟨2⟩, deleter := ⟨{ exn := "42" }⟩, execute_on_destruction := true }
      "42" quiet { uncaught_exceptions := 1, out := [] } quiet (by rfl) (by decide)).1⟩

/-- C22, as stated, fails: with an `int` resource and a lambda deleter, both
nothrow constructible, the factory is declared `noexcept`; a comparison that
throws then calls `std::terminate` and the exception does not reach the caller. -/
theorem checked_factory_throwing_comparison_counterexample :
    (make_unique_resource_checked (.rvalue (42 : Int)) ({ exn := "==" } : throwing_sentinel String)
      (.rvalue logging_deleter.mk) { uncaught_exceptions := 0, out := [] } :
      Outcome String Int (unique_resource Int logging_deleter)) =
      .terminate { uncaught_exceptions := 1, out := [] } ∧
    (make_unique_resource_checked (.rvalue (42 : Int)) ({ exn := "==" } : throwing_sentinel String)
      (.rvalue logging_deleter.mk) { uncaught_exceptions := 0, out := [] } :
      Outcome String Int (unique_resource Int logging_deleter)) ≠
      .raise "==" { uncaught_exceptions := 1, out := [] } := by
  constructor <;> decide

/-- C22, amended: when `r == invalid` throws `e`, the factory ends in the world
where `e` was thrown, whatever the constructors would do: no object is built
and the deleter is not invoked. When the factory is not declared `noexcept`
(the resource or the deleter is not nothrow constructible from its argument)
it exits with `e`; when it is declared `noexcept`, `std::terminate` is called. -/
theorem checked_factory_throwing_comparison [Constructible ε R] [Constructible ε D]
    [Deleter ε κ D R] [EqualityComparable ε R S] (ra : Arg R) (invalid : S) (da : Arg D)
    (e : ε) (w : World κ)
    (heq : (EqualityComparable.eq ra.get invalid : Except ε Bool) = .error e) :
    (make_unique_resource_checked ra invalid da w : Outcome ε κ (unique_resource R D)).world =
      thrown w ∧
    ((ra.is_nothrow_constructible ε && da.is_nothrow_constructible ε) = false →
      (make_unique_resource_checked ra invalid da w : Outcome ε κ (unique_resource R D)) =
        .raise e (thrown w)) ∧
    ((ra.is_nothrow_constructible ε && da.is_nothrow_constructible ε) = true →
      (make_unique_resource_checked ra invalid da w : Outcome ε κ (unique_resource R D)) =
        .terminate (thrown w)) := by
  have h : (make_unique_resource_checked ra invalid da w :
      Outcome ε κ (unique_resource R D)) =
      noexcept_ (ra.is_nothrow_constructible ε && da.is_nothrow_constructible ε)
        (.raise e (thrown w)) := by
    simp [make_unique_resource_checked, heq, of_except, Outcome.bind, throw_]
  refine ⟨?_, ?_, ?_⟩
  · rw [h]
    cases (ra.is_nothrow_constructible ε && da.is_nothrow_constructible ε) <;> rfl
  · intro hn
    rw [h, hn]
    rfl
  · intro hn
    rw [h, hn]
    rfl

/-- Witness of C22, amended: the comparison throws and the deleter is a
`throwing_copy`, which is not nothrow constructible. -/
theorem checked_factory_throwing_comparison_witness :
    ((EqualityComparable.eq (Arg.rvalue (42 : Int)).get ({ exn := "==" } : throwing_sentinel String) :
        Except String Bool) = .error "==" ∧
      ((Arg.rvalue (42 : Int)).is_nothrow_constructible String &&
        (Arg.rvalue ({ sz_ := "d" } : throwing_copy)).is_nothrow_constructible String) = false) ∧
    (make_unique_resource_checked (.rvalue (42 : Int)) ({ exn := "==" } : throwing_sentinel String)
      (.rvalue ({ sz_ := "d" } : throwing_copy)) quiet :
      Outcome String String (unique_resource Int throwing_copy)) = .raise "==" (thrown quiet) :=
  ⟨⟨rfl, rfl⟩,
    (@checked_factory_throwing_comparison String String Int throwing_copy
      (throwing_sentinel String) _ _ _ _ (.rvalue 42) { exn := "==" }
      (.rvalue { sz_ := "d" }) "==" quiet (by rfl)).2.1 (by rfl)⟩

/-- C28: a `scope_success` guard is built from a callback stored as `f`, of a
type whose call is not declared `noexcept`, and destroyed at the count of
uncaught exceptions of its construction. When the call `f()` exits with `e` in
world `w2`, the destructor exits with `e` in `w2`: the callback ran exactly
once and its exception leaves the destructor. The test
`scope_success(lam)` with a lambda that writes "called" and throws 42 ends
with that exception and "called" written. -/
theorem scope_success_callback_exception_propagates [Constructible ε F] [Invocable ε κ F]
    (a : Arg F) (f : F) (e : ε) (w w1 w2 : World κ)
    (hstore : (_box.init a : Except ε (_box F)) = .ok ⟨f⟩)
    (hlo : 0 ≤ w.uncaught_exceptions) (hhi : w.uncaught_exceptions ≤ INT_MAX)
    (hsame : w1.uncaught_exceptions = w.uncaught_exceptions)
    (hnt : @Invocable.is_nothrow_invocable ε κ F _ = false)
    (hcall : (Invocable.call f w1 : Outcome ε κ Unit) = .raise e w2) :
    (∃ g : scope_success F,
      (basic_scope_exit.ctor a w : Outcome ε κ (scope_success F)) = .ok g w ∧
      (g.dtor w1 : Outcome ε κ Unit) = .raise e w2) ∧
    ((basic_scope_exit.ctor (.lvalue ({ text := "called", throws := some "42" } :
        Callback String String)) quiet :
        Outcome String String (scope_success (Callback String String))).bind
      (fun g w0 => g.dtor w0)) = .raise "42" { uncaught_exceptions := 1, out := ["called"] } := by
  refine ⟨⟨_, guard_ctor_of_init_ok on_success_release_final a _ w hstore hlo hhi, ?_⟩, ?_⟩
  · rw [guard_dtor_of_should_execute, hnt, noexcept_false]
    · exact hcall
    · simp [ExitPolicy.should_execute, ExitPolicy.init, on_success_policy.should_execute, hsame]
  · decide

/-- Witness of C28: the guard of the test "Test scope_success might throw"
(test.cpp, lines 583-591). -/
theorem scope_success_callback_exception_propagates_witness :
    ((_box.init (.lvalue ({ text := "called", throws := some "42" } : Callback String String)) :
        Except String (_box (Callback String String))) =
        .ok ⟨{ text := "called", throws := some "42" }⟩ ∧
      @Invocable.is_nothrow_invocable String String (Callback String String) _ = false ∧
      (Invocable.call ({ text := "called", throws := some "42" } : Callback String String) quiet :
        Outcome String String Unit) =
        .raise "42" { uncaught_exceptions := 1, out := ["called"] }) ∧
    ∃ g : scope_success (Callback String String),
      (basic_scope_exit.ctor (.lvalue { text := "called", throws := some "42" }) quiet :
        Outcome String String (scope_success (Callback String String))) = .ok g quiet ∧
      (g.dtor quiet : Outcome String String Unit) =
        .raise "42" { uncaught_exceptions := 1, out := ["called"] } :=
  ⟨⟨rfl, rfl, by decide⟩,
    (@scope_success_callback_exception_propagates String String (Callback String String) _ _
      (.lvalue { text := "called", throws := some "42" })
      { text := "called", throws := some "42" } "42" quiet quiet
      { uncaught_exceptions := 1, out := ["called"] }
      (by rfl) (by decide) (by decide) (by rfl) (by rfl) (by decide)).1⟩

/-- C29: of an unreleased `on_fail_policy` and an unreleased `on_success_policy`
that both captured `c`, exactly one has `should_execute()` true at count `n`:
the first iff `c < n`, the second iff `c ≥ n`. So of a `scope_fail` guard and a
`scope_success` guard built at the same count and destroyed in the same world,
one does nothing and the other performs exactly one call of its callback. -/
theorem fail_and_success_are_complementary [Invocable ε κ F] (c n : Int) (bf bs : _box F)
    (w : World κ) :
    on_fail_policy.should_execute { ec_ := c } n =
      !on_success_policy.should_execute { ec_ := c } n ∧
    (on_fail_policy.should_execute { ec_ := c } n = true ↔ c < n) ∧
    (on_success_policy.should_execute { ec_ := c } n = true ↔ c ≥ n) ∧
    (((basic_scope_exit.dtor ({ policy := { ec_ := c }, exit_function := bf } : scope_fail F) w :
          Outcome ε κ Unit) = .ok () w ∧
        (basic_scope_exit.dtor ({ policy := { ec_ := c }, exit_function := bs } :
          scope_success F) w : Outcome ε κ Unit) =
          noexcept_ (@Invocable.is_nothrow_invocable ε κ F _) (Invocable.call bs.get w)) ∨
      ((basic_scope_exit.dtor ({ policy := { ec_ := c }, exit_function := bf } : scope_fail F) w :
          Outcome ε κ Unit) =
          noexcept_ (@Invocable.is_nothrow_invocable ε κ F _) (Invocable.call bf.get w) ∧
        (basic_scope_exit.dtor ({ policy := { ec_ := c }, exit_function := bs } :
          scope_success F) w : Outcome ε κ Unit) = .ok () w)) := by
  refine ⟨?_, ?_, ?_, ?_⟩
  · by_cases h : c < n <;>
      simp [on_fail_policy.should_execute, on_success_policy.should_execute, h]
    omega
  · simp [on_fail_policy.should_execute]
  · simp [on_success_policy.should_execute]
  · by_cases h : c < w.uncaught_exceptions
    · right
      constructor
      · apply guard_dtor_of_should_execute
        simp [ExitPolicy.should_execute, on_fail_policy.should_execute, h]
      · apply guard_dtor_of_not_should_execute
        simp [ExitPolicy.should_execute, on_success_policy.should_execute, h]
    · left
      constructor
      · apply guard_dtor_of_not_should_execute
        simp [ExitPolicy.should_execute, on_fail_policy.should_execute, h]
      · apply guard_dtor_of_should_execute
        simp only [ExitPolicy.should_execute, on_success_policy.should_execute,
          decide_eq_true_eq]
        omega

end thrown_by_callables

/-! ## Claims on the failsafe guard -/

section failsafe
variable {ε κ F : Type}

/-- C25, at a callback passed as an lvalue whose type has a move constructor
declared `noexcept` and a copy constructor that throws: `_noexcept_ctor_from`
is true, because the exception specification of the box constructor
(scope.hpp, line 62) is computed from `(T &&) t`, so no failsafe guard is made
and the constructor of the guard is `noexcept(true)`, while the box copies the
lvalue. `scope_success(c)` then ends in `std::terminate`: the constructor does
not throw; nothing was written. With the `throwing_copy` object of the test
(test.cpp, lines 218-223), whose type has no `noexcept` move constructor, a
failsafe guard is made and `scope_success(c)` throws with nothing written. -/
theorem scope_success_lvalue_copy_failure_terminates :
    _noexcept_ctor_from String noexcept_move_throwing_copy = true ∧
    (basic_scope_exit.ctor (.lvalue ({ sz_ := "Oh noes!!!" } : noexcept_move_throwing_copy))
      quiet : Outcome String String (scope_success noexcept_move_throwing_copy)) =
      .terminate { uncaught_exceptions := 1, out := [] } ∧
    _noexcept_ctor_from String throwing_copy = false ∧
    (basic_scope_exit.ctor (.lvalue ({ sz_ := "Oh noes!!!" } : throwing_copy)) quiet :
      Outcome String String (scope_success throwing_copy)) =
      .raise "throwing_copy copy attempt:" { uncaught_exceptions := 1, out := [] } := by
  refine ⟨?_, ?_, ?_, ?_⟩ <;> decide

/-- C26: a callback is stored as `f` without throwing. The box constructor then
returns the guard it was given after one `release()`, for every guard; for an
argument whose storing throws it returns no guard, the exception leaves it (or
`std::terminate` is called) before `release()`. The released failsafe of each
kind is destroyed without effect, so the constructor of each kind of guard
returns in the world it started in, having invoked nothing; the destructor of
the guard built does nothing or performs exactly one call `f()`. -/
theorem guard_ctor_invokes_nothing [Constructible ε F] [Invocable ε κ F]
    (a : Arg F) (f : F) (w w1 : World κ)
    (hstore : (_box.init a : Except ε (_box F)) = .ok ⟨f⟩)
    (hlo : 0 ≤ w.uncaught_exceptions) (hhi : w.uncaught_exceptions ≤ INT_MAX) :
    (∀ (G : Type) (inst : Releasable G) (g : G),
      (@_box.ctor ε κ F G _ inst a g w : Outcome ε κ (_box F × G)) =
        .ok (⟨f⟩, Releasable.release g) w) ∧
    (∀ (G : Type) (inst : Releasable G) (g : G) (a2 : Arg F) (e : ε),
      (_box.init a2 : Except ε (_box F)) = .error e →
      (@_box.ctor ε κ F G _ inst a2 g w : Outcome ε κ (_box F × G)) =
        noexcept_ (_box.noexcept_ctor ε F) (.raise e (thrown w))) ∧
    ((basic_scope_exit.dtor (Releasable.release
        (basic_scope_exit.ctor_ref a.get w : basic_scope_exit (Ref F) on_exit_policy)) w :
        Outcome ε κ Unit) = .ok () w ∧
      (basic_scope_exit.dtor (Releasable.release
        (basic_scope_exit.ctor_ref a.get w : basic_scope_exit (Ref F) on_fail_policy)) w :
        Outcome ε κ Unit) = .ok () w ∧
      (basic_scope_exit.dtor (Releasable.release
        (basic_scope_exit.ctor_ref a.get w : basic_scope_exit (Ref F) on_success_policy)) w :
        Outcome ε κ Unit) = .ok () w) ∧
    (∃ g : scope_exit F,
      (basic_scope_exit.ctor a w : Outcome ε κ (scope_exit F)) = .ok g w ∧
      ((g.dtor w1 : Outcome ε κ Unit) = .ok () w1 ∨
        (g.dtor w1 : Outcome ε κ Unit) =
          noexcept_ (@Invocable.is_nothrow_invocable ε κ F _) (Invocable.call f w1))) ∧
    (∃ g : scope_fail F,
      (basic_scope_exit.ctor a w : Outcome ε κ (scope_fail F)) = .ok g w ∧
      ((g.dtor w1 : Outcome ε κ Unit) = .ok () w1 ∨
        (g.dtor w1 : Outcome ε κ Unit) =
          noexcept_ (@Invocable.is_nothrow_invocable ε κ F _) (Invocable.call f w1))) ∧
    (∃ g : scope_success F,
      (basic_scope_exit.ctor a w : Outcome ε κ (scope_success F)) = .ok g w ∧
      ((g.dtor w1 : Outcome ε κ Unit) = .ok () w1 ∨
        (g.dtor w1 : Outcome ε κ Unit) =
          noexcept_ (@Invocable.is_nothrow_invocable ε κ F _) (Invocable.call f w1))) := by
  refine ⟨fun G inst g => box_ctor_of_init_ok a ⟨f⟩ g w hstore, ?_, ⟨?_, ?_, ?_⟩,
    ⟨_, guard_ctor_of_init_ok on_exit_release_final a _ w hstore hlo hhi,
      guard_dtor_at_most_once _ w1⟩,
    ⟨_, guard_ctor_of_init_ok on_fail_release_final a _ w hstore hlo hhi,
      guard_dtor_at_most_once _ w1⟩,
    ⟨_, guard_ctor_of_init_ok on_success_release_final a _ w hstore hlo hhi,
      guard_dtor_at_most_once _ w1⟩⟩
  · intro G inst g a2 e h2
    simp [_box.ctor, h2, of_except, Outcome.bind, throw_]
  · exact guard_dtor_of_not_should_execute _ w (on_exit_release_final _ _ hlo hhi)
  · exact guard_dtor_of_not_should_execute _ w (on_fail_release_final _ _ hlo hhi)
  · exact guard_dtor_of_not_should_execute _ w (on_success_release_final _ _ hlo hhi)

/-- Witness of C26: a `scope_fail` guard around the lambda that writes "done". -/
theorem guard_ctor_invokes_nothing_witness :
    ((_box.init (.rvalue done) : Except String (_box (Callback String String))) = .ok ⟨done⟩ ∧
      0 ≤ quiet.uncaught_exceptions ∧ quiet.uncaught_exceptions ≤ INT_MAX) ∧
    ∃ g : scope_fail (Callback String String),
      (basic_scope_exit.ctor (.rvalue done) quiet :
        Outcome String String (scope_fail (Callback String String))) = .ok g quiet ∧
      ((g.dtor (thrown quiet) : Outcome String String Unit) = .ok () (thrown quiet) ∨
        (g.dtor (thrown quiet) : Outcome String String Unit) =
          noexcept_ (@Invocable.is_nothrow_invocable String String (Callback String String) _)
            (Invocable.call done (thrown quiet))) :=
  ⟨⟨rfl, by decide, by decide⟩,
    (@guard_ctor_invokes_nothing String String (Callback String String) _ _
      (.rvalue done) done quiet (thrown quiet) (by rfl) (by decide) (by decide)).2.2.2.2.1⟩

end failsafe

/-! ## Claims on assignments that throw -/

section throwing_assignments
variable {ε κ R D : Type}

/-- C27: `reset(r)` on an object whose assignment from `r` throws `e`, the
`reset` overload of the box not being declared `noexcept`. With `w1` the world
after the deleter call on the old value made when the object owned (the
initial world when it did not), and `w2` the world after one call of the
deleter on `r` made while `e` is in flight: `reset(r)` exits with `e` in `w2`
and leaves the object not owning, so its destruction invokes nothing. -/
theorem reset_value_assignment_failure [Assignable ε R] [Deleter ε κ D R]
    (u : unique_resource R D) (ra : Arg R) (e : ε) (w w1 w2 w3 : World κ)
    (hassign : (_box.assign u.resource ra : Except ε (_box R)) = .error e)
    (hnx : _box.noexcept_reset ε ra = false)
    (hdel : (if u.execute_on_destruction then
        (Deleter.call u.get_deleter u.get w : Outcome ε κ Unit) else .ok () w) = .ok () w1)
    (hcnt : w1.uncaught_exceptions = w.uncaught_exceptions)
    (hnew : (Deleter.call u.get_deleter ra.get (thrown w1) : Outcome ε κ Unit) = .ok () w2) :
    (u.reset_value ra w : unique_resource R D × Outcome ε κ Unit) =
      (u.release, .raise e w2) ∧
    u.release.execute_on_destruction = false ∧
    (u.release.dtor w3 : unique_resource R D × Outcome ε κ Unit) = (u.release, .ok () w3) := by
  refine ⟨?_, rfl, unique_dtor_of_not_owns _ w3 rfl⟩
  have hguard : (basic_scope_exit.dtor
      ({ policy := ExitPolicy.init w.uncaught_exceptions,
         exit_function := ⟨⟨fun w0 => Deleter.call u.get_deleter ra.get w0⟩⟩ } :
        scope_fail (Lambda ε κ)) (thrown w1) : Outcome ε κ Unit) = .ok () w2 := by
    rw [guard_dtor_of_should_execute]
    · simp [Invocable.call, _box.get, hnew]
    · simp [ExitPolicy.should_execute, ExitPolicy.init, on_fail_policy.should_execute, thrown,
        hcnt]
  have hbox : (_box.reset u.release.resource ra w1 : Outcome ε κ (_box R)) =
      .raise e (thrown w1) := by
    have : (_box.assign u.release.resource ra : Except ε (_box R)) = .error e := hassign
    simp [_box.reset, this, of_except, hnx, throw_]
  unfold unique_resource.reset_value
  simp only [guard_ctor_lambda, unique_reset_of_call_ok u w w1 hdel, hbox, leave_scope, unwind,
    hguard, hnx, noexcept_false]

/-- Witness of C27: the owning object that holds "old" is reset with "new", and
the assignment throws. -/
theorem reset_value_assignment_failure_witness :
    ((_box.assign (⟨{ name := "old" }⟩ : _box throwing_assign) (.rvalue { name := "new" }) :
        Except String (_box throwing_assign)) = .error "assignment of new" ∧
      _box.noexcept_reset String (Arg.rvalue ({ name := "new" } : throwing_assign)) = false) ∧
    (unique_resource.reset_value
      ({ resource := ⟨{ name := "old" }⟩, deleter := ⟨logging_deleter.mk⟩,
         execute_on_destruction := true } : unique_resource throwing_assign logging_deleter)
      (.rvalue { name := "new" }) { uncaught_exceptions := 0, out := [] } :
      unique_resource throwing_assign logging_deleter × Outcome String throwing_assign Unit) =
      ({ resource := ⟨{ name := "old" }⟩, deleter := ⟨logging_deleter.mk⟩,
         execute_on_destruction := false },
        .raise "assignment of new"
          { uncaught_exceptions := 1, out := [{ name := "old" }, { name := "new" }] }) :=
  ⟨⟨rfl, rfl⟩,
    (@reset_value_assignment_failure String throwing_assign throwing_assign logging_deleter _ _
      { resource := ⟨{ name := "old" }⟩, deleter := ⟨logging_deleter.mk⟩,
        execute_on_destruction := true }
      (.rvalue { name := "new" }) "assignment of new"
      { uncaught_exceptions := 0, out := [] }
      { uncaught_exceptions := 0, out := [{ name := "old" }] }
      { uncaught_exceptions := 1, out := [{ name := "old" }, { name := "new" }] }
      { uncaught_exceptions := 0, out := [] }
      (by rfl) (by rfl) (by rfl) (by rfl) (by rfl)).1⟩

end throwing_assignments

/-! ## Claims on blocks that declare several guards -/

section block_claims
variable {ε κ α F P : Type}

/-- The destructor of a guard whose callback records its call and returns. -/
theorem guard_dtor_logged [Invocable ε κ F] [ExitPolicy P] (tag : F → κ)
    (g : basic_scope_exit F P)
    (hlog : ∀ w : World κ, (Invocable.call g.exit_function.get w : Outcome ε κ Unit) =
      .ok () { w with out := w.out ++ [tag g.exit_function.get] })
    (w : World κ) :
    (g.dtor w : Outcome ε κ Unit) =
      .ok () { w with out := w.out ++
        (if ExitPolicy.should_execute g.policy w.uncaught_exceptions then
          [tag g.exit_function.get] else []) } := by
  cases h : ExitPolicy.should_execute g.policy w.uncaught_exceptions
  · rw [guard_dtor_of_not_should_execute g w h]
    simp
  · rw [guard_dtor_of_should_execute g w h, hlog]
    simp

/-- One guard declared in front of the rest of a block: it is destroyed after
the rest of the block, whether that returned or was left by an exception. -/
theorem guard_then_rest [Constructible ε F] [Invocable ε κ F] [ExitPolicy P]
    (hP : ReleaseFinal P) (tag : F → κ) (ef : Arg F)
    (hlog : ∀ w : World κ, (Invocable.call ef.get w : Outcome ε κ Unit) =
      .ok () { w with out := w.out ++ [tag ef.get] })
    (rest : World κ → Outcome ε κ α) (w w1 : World κ)
    (hstore : (_box.init ef : Except ε (_box F)) = .ok ⟨ef.get⟩)
    (hlo : 0 ≤ w.uncaught_exceptions) (hhi : w.uncaught_exceptions ≤ INT_MAX) :
    (∀ a : α, rest w = .ok a w1 →
      ((basic_scope_exit.ctor ef w : Outcome ε κ (basic_scope_exit F P)).bind
        (fun guard w0 => leave_scope (basic_scope_exit.dtor guard) (rest w0))) =
        .ok a { w1 with out := w1.out ++
          (if ExitPolicy.should_execute (ExitPolicy.init w.uncaught_exceptions : P)
              w1.uncaught_exceptions then [tag ef.get] else []) }) ∧
    (∀ e : ε, rest w = .raise e w1 →
      ((basic_scope_exit.ctor ef w : Outcome ε κ (basic_scope_exit F P)).bind
        (fun guard w0 => leave_scope (basic_scope_exit.dtor guard) (rest w0))) =
        .raise e { w1 with out := w1.out ++
          (if ExitPolicy.should_execute (ExitPolicy.init w.uncaught_exceptions : P)
              w1.uncaught_exceptions then [tag ef.get] else []) }) := by
  have hd := guard_dtor_logged tag
    ({ policy := ExitPolicy.init w.uncaught_exceptions, exit_function := ⟨ef.get⟩ } :
      basic_scope_exit F P) hlog w1
  constructor
  · intro a hrest
    rw [guard_ctor_of_init_ok hP ef _ w hstore hlo hhi]
    simp only [Outcome.bind, hrest, leave_scope, hd, _box.get]
  · intro e hrest
    rw [guard_ctor_of_init_ok hP ef _ w hstore hlo hhi]
    simp only [Outcome.bind, hrest, leave_scope, unwind, hd, _box.get]

/-- A block of guards whose callbacks record their calls: when the body returns
or throws in world `w1`, the block ends in the same way after the callbacks of
the guards whose policy decides to execute, run in the reverse of the order of
declaration. -/
theorem block_of_guards_logged [Constructible ε F] [Invocable ε κ F] (tag : F → κ)
    (gs : List (Kind × Arg F)) (body : World κ → Outcome ε κ α) (w w1 : World κ)
    (hlog : ∀ g ∈ gs, ∀ w0 : World κ, (Invocable.call g.2.get w0 : Outcome ε κ Unit) =
      .ok () { w0 with out := w0.out ++ [tag g.2.get] })
    (hstore : ∀ g ∈ gs, (_box.init g.2 : Except ε (_box F)) = .ok ⟨g.2.get⟩)
    (hlo : 0 ≤ w.uncaught_exceptions) (hhi : w.uncaught_exceptions ≤ INT_MAX) :
    (∀ a : α, body w = .ok a w1 →
      block_of_guards gs body w =
        .ok a { w1 with out := w1.out ++
          ((gs.filter (fun g =>
            g.1.should_execute w.uncaught_exceptions w1.uncaught_exceptions)).reverse.map
            (fun g => tag g.2.get)) }) ∧
    (∀ e : ε, body w = .raise e w1 →
      block_of_guards gs body w =
        .raise e { w1 with out := w1.out ++
          ((gs.filter (fun g =>
            g.1.should_execute w.uncaught_exceptions w1.uncaught_exceptions)).reverse.map
            (fun g => tag g.2.get)) }) := by
  induction gs with
  | nil =>
    constructor
    · intro a h
      simp [block_of_guards, h]
    · intro e h
      simp [block_of_guards, h]
  | cons g gs ih =>
    have ih2 := ih (fun x hx => hlog x (List.mem_cons_of_mem _ hx))
      (fun x hx => hstore x (List.mem_cons_of_mem _ hx))
    have hg := hstore g (List.mem_cons_self _ _)
    have hl := hlog g (List.mem_cons_self _ _)
    obtain ⟨k, ef⟩ := g
    constructor
    · intro a h
      have hin := ih2.1 a h
      cases k
      · simp only [block_of_guards]
        rw [(guard_then_rest on_exit_release_final tag ef hl _ w _ hg hlo hhi).1 a hin]
        cases hk : ExitPolicy.should_execute
          (ExitPolicy.init w.uncaught_exceptions : on_exit_policy) w1.uncaught_exceptions <;>
          simp [Kind.should_execute, hk, List.filter_cons]
      · simp only [block_of_guards]
        rw [(guard_then_rest on_fail_release_final tag ef hl _ w _ hg hlo hhi).1 a hin]
        cases hk : ExitPolicy.should_execute
          (ExitPolicy.init w.uncaught_exceptions : on_fail_policy) w1.uncaught_exceptions <;>
          simp [Kind.should_execute, hk, List.filter_cons]
      · simp only [block_of_guards]
        rw [(guard_then_rest on_success_release_final tag ef hl _ w _ hg hlo hhi).1 a hin]
        cases hk : ExitPolicy.should_execute
          (ExitPolicy.init w.uncaught_exceptions : on_success_policy) w1.uncaught_exceptions <;>
          simp [Kind.should_execute, hk, List.filter_cons]
    · intro e h
      have hin := ih2.2 e h
      cases k
      · simp only [block_of_guards]
        rw [(guard_then_rest on_exit_release_final tag ef hl _ w _ hg hlo hhi).2 e hin]
        cases hk : ExitPolicy.should_execute
          (ExitPolicy.init w.uncaught_exceptions : on_exit_policy) w1.uncaught_exceptions <;>
          simp [Kind.should_execute, hk, List.filter_cons]
      · simp only [block_of_guards]
        rw [(guard_then_rest on_fail_release_final tag ef hl _ w _ hg hlo hhi).2 e hin]
        cases hk : ExitPolicy.should_execute
          (ExitPolicy.init w.uncaught_exceptions : on_fail_policy) w1.uncaught_exceptions <;>
          simp [Kind.should_execute, hk, List.filter_cons]
      · simp only [block_of_guards]
        rw [(guard_then_rest on_success_release_final tag ef hl _ w _ hg hlo hhi).2 e hin]
        cases hk : ExitPolicy.should_execute
          (ExitPolicy.init w.uncaught_exceptions : on_success_policy) w1.uncaught_exceptions <;>
          simp [Kind.should_execute, hk, List.filter_cons]

/-- C23: a block declares the guards `gs` one after another, their callbacks
being stored unchanged and recording their calls, and is left in world `w1`
(its body returns or throws there) where the policy of every guard decides to
execute. The block then ends after the callbacks have run in the reverse of
the order of declaration, each exactly once. The test with the three macros
writes "fail", "success", "exit". -/
theorem guards_fire_in_reverse_order [Constructible ε F] [Invocable ε κ F] (tag : F → κ)
    (gs : List (Kind × Arg F)) (body : World κ → Outcome ε κ α) (w w1 : World κ)
    (hlog : ∀ g ∈ gs, ∀ w0 : World κ, (Invocable.call g.2.get w0 : Outcome ε κ Unit) =
      .ok () { w0 with out := w0.out ++ [tag g.2.get] })
    (hstore : ∀ g ∈ gs, (_box.init g.2 : Except ε (_box F)) = .ok ⟨g.2.get⟩)
    (hlo : 0 ≤ w.uncaught_exceptions) (hhi : w.uncaught_exceptions ≤ INT_MAX)
    (hall : ∀ g ∈ gs,
      g.1.should_execute w.uncaught_exceptions w1.uncaught_exceptions = true) :
    (∀ a : α, body w = .ok a w1 →
      block_of_guards gs body w =
        .ok a { w1 with out := w1.out ++ gs.reverse.map (fun g => tag g.2.get) }) ∧
    (∀ e : ε, body w = .raise e w1 →
      block_of_guards gs body w =
        .raise e { w1 with out := w1.out ++ gs.reverse.map (fun g => tag g.2.get) }) ∧
    macros_test quiet = .ok () { uncaught_exceptions := 0, out := ["fail", "success", "exit"] } := by
  have hfilter : gs.filter (fun g =>
      g.1.should_execute w.uncaught_exceptions w1.uncaught_exceptions) = gs :=
    List.filter_eq_self.mpr hall
  have h := block_of_guards_logged tag gs body w w1 hlog hstore hlo hhi
  rw [hfilter] at h
  exact ⟨h.1, h.2, by decide⟩

/-- Witness of C23: `{ scope_exit a(one); scope_success b(two); scope_exit c(three); }`. -/
theorem guards_fire_in_reverse_order_witness :
    ((0 : Int) ≤ quiet.uncaught_exceptions ∧ quiet.uncaught_exceptions ≤ INT_MAX ∧
      ∀ g ∈ [(Kind.exit, Arg.rvalue ({ text := "one" } : Callback String String)),
          (Kind.success, Arg.rvalue { text := "two" }), (Kind.exit, Arg.rvalue { text := "three" })],
        g.1.should_execute quiet.uncaught_exceptions quiet.uncaught_exceptions = true) ∧
    (block_of_guards
      [(Kind.exit, Arg.rvalue ({ text := "one" } : Callback String String)),
        (Kind.success, Arg.rvalue { text := "two" }), (Kind.exit, Arg.rvalue { text := "three" })]
      (fun w0 => (.ok () w0 : Outcome String String Unit)) quiet) =
      .ok () { quiet with out := quiet.out ++
        ([(Kind.exit, Arg.rvalue ({ text := "one" } : Callback String String)),
          (Kind.success, Arg.rvalue { text := "two" }),
          (Kind.exit, Arg.rvalue { text := "three" })].reverse.map
          (fun g => g.2.get.text)) } :=
  ⟨⟨by decide, by decide, by decide⟩,
    (@guards_fire_in_reverse_order String String Unit (Callback String String) _ _
      (fun f => f.text)
      [(Kind.exit, Arg.rvalue { text := "one" }), (Kind.success, Arg.rvalue { text := "two" }),
        (Kind.exit, Arg.rvalue { text := "three" })]
      (fun w0 => .ok () w0) quiet quiet
      (by
        intro g hg w0
        simp only [List.mem_cons, List.mem_singleton, List.not_mem_nil, or_false] at hg
        rcases hg with rfl | rfl | rfl <;> rfl)
      (by
        intro g hg
        simp only [List.mem_cons, List.mem_singleton, List.not_mem_nil, or_false] at hg
        rcases hg with rfl | rfl | rfl <;> rfl)
      (by decide) (by decide) (by decide)).1 () rfl⟩

/-- C24: a block declares `scope_exit(f)`, `scope_success(g)`, `scope_fail(h)` in
this order, the callbacks being stored unchanged and recording their calls,
and then throws `e`. The exception leaves the block after exactly the calls
`h()` and then `f()`; `g` is not called. The demo program, which goes on with a
handler that declares `scope_fail` and `scope_success` guards, writes "called ",
"always ", "handled". -/
theorem exit_success_fail_unwound [Constructible ε F] [Invocable ε κ F] (tag : F → κ)
    (f g h : Arg F) (e : ε) (w : World κ)
    (hlogf : ∀ w0 : World κ, (Invocable.call f.get w0 : Outcome ε κ Unit) =
      .ok () { w0 with out := w0.out ++ [tag f.get] })
    (hlogg : ∀ w0 : World κ, (Invocable.call g.get w0 : Outcome ε κ Unit) =
      .ok () { w0 with out := w0.out ++ [tag g.get] })
    (hlogh : ∀ w0 : World κ, (Invocable.call h.get w0 : Outcome ε κ Unit) =
      .ok () { w0 with out := w0.out ++ [tag h.get] })
    (hf : (_box.init f : Except ε (_box F)) = .ok ⟨f.get⟩)
    (hg : (_box.init g : Except ε (_box F)) = .ok ⟨g.get⟩)
    (hh : (_box.init h : Except ε (_box F)) = .ok ⟨h.get⟩)
    (hlo : 0 ≤ w.uncaught_exceptions) (hhi : w.uncaught_exceptions ≤ INT_MAX) :
    (block_of_guards [(.exit, f), (.success, g), (.fail, h)]
      (fun w0 => (throw_ e w0 : Outcome ε κ Unit)) w) =
      .raise e { thrown w with out := w.out ++ [tag h.get, tag f.get] } ∧
    demo_scope_exit_fail_success quiet =
      .ok () { uncaught_exceptions := 0, out := ["called ", "always ", "handled"] } := by
  constructor
  · have hb := (block_of_guards_logged tag [(.exit, f), (.success, g), (.fail, h)]
      (fun w0 => (throw_ e w0 : Outcome ε κ Unit)) w (thrown w)
      (by
        intro x hx
        simp only [List.mem_cons, List.mem_singleton, List.not_mem_nil, or_false] at hx
        rcases hx with rfl | rfl | rfl
        · exact hlogf
        · exact hlogg
        · exact hlogh)
      (by
        intro x hx
        simp only [List.mem_cons, List.mem_singleton, List.not_mem_nil, or_false] at hx
        rcases hx with rfl | rfl | rfl
        · exact hf
        · exact hg
        · exact hh)
      hlo hhi).2 e rfl
    rw [hb]
    simp [Kind.should_execute, ExitPolicy.should_execute, ExitPolicy.init,
      on_exit_policy.should_execute, on_fail_policy.should_execute,
      on_success_policy.should_execute, thrown, List.filter_cons]
  · decide

/-- Witness of C24: the three guards of the demo (test.cpp, lines 597-599). -/
theorem exit_success_fail_unwound_witness :
    ((0 : Int) ≤ quiet.uncaught_exceptions ∧ quiet.uncaught_exceptions ≤ INT_MAX) ∧
    (block_of_guards
      [(Kind.exit, Arg.rvalue ({ text := "always " } : Callback String String)),
        (Kind.success, Arg.rvalue { text := "not " }), (Kind.fail, Arg.lvalue { text := "called " })]
      (fun w0 => (throw_ "42" w0 : Outcome String String Unit)) quiet) =
      .raise "42" { thrown quiet with out := quiet.out ++ ["called ", "always "] } :=
  ⟨⟨by decide, by decide⟩,
    (@exit_success_fail_unwound String String (Callback String String) _ _ (fun c => c.text)
      (.rvalue { text := "always " }) (.rvalue { text := "not " }) (.lvalue { text := "called " })
      "42" quiet (fun _ => rfl) (fun _ => rfl) (fun _ => rfl) (by rfl) (by rfl) (by rfl)
      (by decide) (by decide)).1⟩

end block_claims

end scope
